import Mathlib

/-!
Shallow embedding of the EasyEDA-to-KiCad conversion core (popup.js of
easyEdaDownloader) and proofs about it.

Numbers are modelled as exact rationals (or an abstract linearly ordered
field for the arc solver); the transcendental JavaScript Math functions
(sqrt, acos, cos, sin, atan2, PI) and JSON.parse are platform primitives,
modelled as abstract parameters, with theorems assuming only facts that the
real functions satisfy.  JavaScript strings are Lean strings; every string
operation of the source (split, replace, trim, toFixed, ...) is embedded as
a structurally recursive function on character lists so that all
definitions evaluate inside the kernel.  Code that can throw (undefined
property access) is embedded in the Except monad.
-/

namespace EasyEda

/-! ## JavaScript string primitives -/

/-- The whitespace class used by JavaScript regexps and trim (ASCII part). -/
def jsWs (c : Char) : Bool :=
  c = ' ' || c = '\t' || c = '\n' || c = '\r' || c = '\x0b' || c = '\x0c'

/-- Split a character list at every occurrence of a single-character
separator, keeping empty pieces, like JavaScript s.split(sep). -/
def jsSplitChar (sep : Char) : List Char → List (List Char)
  | [] => [[]]
  | c :: rest =>
    match jsSplitChar sep rest with
    | [] => if c = sep then [[], []] else [[c]]
    | h :: t => if c = sep then [] :: h :: t else (c :: h) :: t

/-- JavaScript s.split(sep) for a one-character separator. -/
def jsSplit1 (sep : Char) (s : String) : List String :=
  (jsSplitChar sep s.data).map (fun l => ⟨l⟩)

/-- Fuel-driven splitter for multi-character separators (the fuel is an
upper bound on the input length, so it never runs out). -/
def jsSplitStrGo (sep : List Char) : Nat → List Char → List (List Char)
  | 0, l => [l]
  | _ + 1, [] => [[]]
  | fuel + 1, c :: rest =>
    if sep.isPrefixOf (c :: rest) then
      [] :: jsSplitStrGo sep fuel ((c :: rest).drop sep.length)
    else
      match jsSplitStrGo sep fuel rest with
      | [] => [[c]]
      | h :: t => (c :: h) :: t

/-- JavaScript s.split(sep) for a non-empty separator string. -/
def jsSplitStr (sep : String) (s : String) : List String :=
  (jsSplitStrGo sep.data (s.data.length + 1) s.data).map (fun l => ⟨l⟩)

/-- Replace the first occurrence of pat (JavaScript s.replace(pat, repl)
with a plain-string pattern). -/
def jsReplaceFirstGo (pat repl : List Char) : Nat → List Char → List Char
  | 0, l => l
  | _ + 1, [] => []
  | fuel + 1, c :: rest =>
    if pat.isPrefixOf (c :: rest) then
      repl ++ (c :: rest).drop pat.length
    else
      c :: jsReplaceFirstGo pat repl fuel rest

def jsReplaceFirst (pat repl s : String) : String :=
  ⟨jsReplaceFirstGo pat.data repl.data (s.data.length + 1) s.data⟩

/-- Replace every occurrence of pat (a global regexp over a literal). -/
def jsReplaceAllGo (pat repl : List Char) : Nat → List Char → List Char
  | 0, l => l
  | _ + 1, [] => []
  | fuel + 1, c :: rest =>
    if pat.isPrefixOf (c :: rest) then
      repl ++ jsReplaceAllGo pat repl fuel ((c :: rest).drop pat.length)
    else
      c :: jsReplaceAllGo pat repl fuel rest

def jsReplaceAll (pat repl s : String) : String :=
  ⟨jsReplaceAllGo pat.data repl.data (s.data.length + 1) s.data⟩

/-- Map over the characters of a string (single-character global regexp
replace such as replace of comma by space). -/
def jsMapChars (f : Char → Char) (s : String) : String :=
  ⟨s.data.map f⟩

/-- Remove every whitespace character (replace of a whitespace run by the
empty string, applied globally). -/
def stripWsChars (l : List Char) : List Char :=
  l.filter (fun c => !jsWs c)

def stripWs (s : String) : String :=
  ⟨stripWsChars s.data⟩

/-- Collapse every whitespace run into a single space (global replace of a
whitespace-plus regexp by one space). -/
def collapseWsGo : Bool → List Char → List Char
  | _, [] => []
  | afterWs, c :: rest =>
    if jsWs c then
      if afterWs then collapseWsGo true rest
      else ' ' :: collapseWsGo true rest
    else
      c :: collapseWsGo false rest

def collapseWs (s : String) : String :=
  ⟨collapseWsGo false s.data⟩

/-- JavaScript String.prototype.trim. -/
def jsTrim (s : String) : String :=
  ⟨((s.data.dropWhile jsWs).reverse.dropWhile jsWs).reverse⟩

/-- Split on maximal whitespace runs, keeping boundary empties: the list
of pieces between runs, with an empty leading (or trailing) piece when the
input starts (or ends) with whitespace, as JavaScript split on a
whitespace-plus regexp does. -/
def splitWsRuns : List Char → List (List Char)
  | [] => [[]]
  | c :: rest =>
    let r := splitWsRuns rest
    if jsWs c then
      match rest with
      | c2 :: _ => if jsWs c2 then r else [] :: r
      | [] => [] :: r
    else
      match r with
      | [] => [[c]]
      | h :: t => (c :: h) :: t

/-- JavaScript s.split(whitespace-plus regexp) with no trimming: pieces
between maximal whitespace runs, with an empty leading or trailing piece
when the string starts or ends with whitespace. -/
def jsSplitWsRaw (s : String) : List String :=
  ((splitWsRuns s.data).map (fun l => ⟨l⟩))

/-- trim then split on whitespace runs, the common source idiom. -/
def jsTrimSplitWs (s : String) : List String :=
  jsSplitWsRaw (jsTrim s)

/-- Substring containment test (String.prototype.includes). -/
def jsIncludesGo (pat : List Char) : List Char → Bool
  | [] => pat.isPrefixOf []
  | c :: rest => pat.isPrefixOf (c :: rest) || jsIncludesGo pat rest

def jsIncludes (pat s : String) : Bool :=
  jsIncludesGo pat.data s.data

def jsStartsWith (pat s : String) : Bool :=
  pat.data.isPrefixOf s.data

def jsEndsWith (pat s : String) : Bool :=
  pat.data.isSuffixOf s.data

/-- Array.prototype.join with a separator. -/
def joinSep (sep : String) : List String → String
  | [] => ""
  | h :: t => t.foldl (fun acc s => acc ++ sep ++ s) h

/-- JavaScript v || "" applied to a possibly-undefined string field. -/
def jsOrEmpty : Option String → String
  | none => ""
  | some s => s

/-- JavaScript v || d for strings: undefined and the empty string are both
falsy and fall through to the default. -/
def jsOrDef (d : String) (o : Option String) : String :=
  if jsOrEmpty o = "" then d else jsOrEmpty o

/-! ## JavaScript number primitives -/

/-- Digits of a natural number, most significant first (helper for all
number rendering; fuel-driven, structurally recursive). -/
def natDigitsGo : Nat → Nat → List Char
  | 0, _ => []
  | _ + 1, 0 => []
  | fuel + 1, n =>
    natDigitsGo fuel (n / 10) ++ [Char.ofNat (48 + n % 10)]

def natToStr (n : Nat) : String :=
  if n = 0 then "0" else ⟨natDigitsGo (n + 1) n⟩

def intToStr (i : Int) : String :=
  if i < 0 then "-" ++ natToStr i.natAbs else natToStr i.natAbs

/-- Number.prototype.toFixed(d): sign of the argument, then the
absolute value rounded to d digits, ties away from zero upward. -/
def toFixedQ (d : Nat) (q : ℚ) : String :=
  let sign := if q < 0 then "-" else ""
  let m : Nat := (⌊|q| * (10 : ℚ) ^ d + 1 / 2⌋).toNat
  if d = 0 then sign ++ natToStr m
  else
    let ip := m / 10 ^ d
    let fp := m % 10 ^ d
    let fpDigits := natToStr fp
    let pad := String.mk (List.replicate (d - fpDigits.data.length) '0')
    sign ++ natToStr ip ++ "." ++ pad ++ fpDigits

/-- Number of decimal places needed (up to 20) to express q exactly. -/
def decPlaces (q : ℚ) : Option Nat :=
  (List.range 21).find? (fun k => (q * (10 : ℚ) ^ k).den = 1)

/-- Default number-to-string conversion for finite-decimal rationals. -/
def numToStr (q : ℚ) : String :=
  match decPlaces q with
  | none => intToStr q.num ++ "/" ++ natToStr q.den
  | some 0 => intToStr q.num
  | some k =>
    let sign := if q < 0 then "-" else ""
    let m : Nat := (|q| * (10 : ℚ) ^ k).num.toNat
    let ip := m / 10 ^ k
    let fp := m % 10 ^ k
    let fpDigits := natToStr fp
    let pad := String.mk (List.replicate (k - fpDigits.data.length) '0')
    sign ++ natToStr ip ++ "." ++ pad ++ fpDigits

/-- Parse the fractional digits of a decimal literal. -/
def parseDigitsGo : List Char → Option (Nat × Nat)
  | [] => some (0, 0)
  | c :: rest =>
    if c.isDigit then
      match parseDigitsGo rest with
      | some (v, n) => some ((c.toNat - 48) * 10 ^ n + v, n + 1)
      | none => none
    else none

/-- JavaScript Number(string) restricted to decimal literals: leading and
trailing whitespace is ignored, the empty string is 0, otherwise an
optional sign followed by digits, an optional point and more digits; any
other input is NaN (None). -/
def jsNumber (s : String) : Option ℚ :=
  let t := (jsTrim s).data
  if t = [] then some 0
  else
    let (sign, body) :=
      match t with
      | '-' :: rest => ((-1 : ℚ), rest)
      | '+' :: rest => ((1 : ℚ), rest)
      | _ => ((1 : ℚ), t)
    let intPart := body.takeWhile Char.isDigit
    let afterInt := body.drop intPart.length
    match afterInt with
    | [] =>
      match parseDigitsGo intPart with
      | some (v, n) => if n = 0 then none else some (sign * v)
      | none => none
    | '.' :: fracChars =>
      let fracPart := fracChars.takeWhile Char.isDigit
      if fracChars.length ≠ fracPart.length then none
      else
        match parseDigitsGo intPart, parseDigitsGo fracPart with
        | some (iv, ni), some (fv, nf) =>
          if ni = 0 ∧ nf = 0 then none
          else some (sign * ((iv : ℚ) + (fv : ℚ) / (10 : ℚ) ^ nf))
        | _, _ => none
    | _ => none

/-- toNumber(value, fallback): Number coercion with a fallback when the
result is not finite. -/
def toNumber (v : Option String) (fallback : ℚ := 0) : ℚ :=
  match v with
  | none => fallback
  | some s => (jsNumber s).getD fallback

/-- toBool: normalize show/hide style flags into booleans. -/
def toBool (v : Option String) : Bool :=
  let s := (jsOrEmpty v).toLower
  if s = "show" || s = "true" || s = "1" then true
  else if s = "hide" || s = "false" || s = "0" || s = "" then false
  else true

/-- sanitizeFields: strip whitespace and replace slashes by underscores. -/
def sanitizeFields (name : String) : String :=
  jsMapChars (fun c => if c = '/' then '_' else c) (stripWs name)

/-- applyTextStyle on the character level: a trailing hash marks overline
text and is rewritten into the KiCad overline syntax. -/
def applyTextStyleChars (l : List Char) : List Char :=
  if l.getLast? = some '#' then
    '~' :: '\x7b' :: (l.dropLast ++ ['\x7d'])
  else l

def applyTextStyle (s : String) : String :=
  ⟨applyTextStyleChars s.data⟩

/-- Array.prototype.join on the character level. -/
def joinChars (sep : Char) : List (List Char) → List Char
  | [] => []
  | [x] => x
  | x :: y :: rest => x ++ sep :: joinChars sep (y :: rest)

/-- applyPinNameStyle: style every slash-separated pin-name segment. -/
def applyPinNameStyle (s : String) : String :=
  ⟨joinChars '/' ((jsSplitChar '/' s.data).map applyTextStyleChars)⟩

/-- pxToMm: EasyEDA pixels to millimeters (symbol scale). -/
def pxToMm (dim : ℚ) : ℚ := 10.0 * dim * 0.0254

/-- convertToMm: EasyEDA length units to millimeters (footprint scale). -/
def convertToMm (dim : ℚ) : ℚ := dim * 10 * 0.0254

/-- Math.round: round half toward positive infinity. -/
def jsRound (q : ℚ) : ℚ := (⌊q + 1 / 2⌋ : ℤ)

/-- fpToKi: footprint units to millimeters rounded to two decimals. -/
def fpToKi (v : Option String) : ℚ :=
  jsRound (toNumber v * 10 * 0.0254 * 100) / 100

/-- fpToKi applied to an already-parsed number. -/
def fpToKiNum (v : ℚ) : ℚ :=
  jsRound (v * 10 * 0.0254 * 100) / 100

/-! ## Platform primitives

The transcendental functions of the JavaScript Math object are not
decimal-computable; the embedding abstracts over any implementation and
theorems assume only facts (such as cos 0 = 1) that the real functions
satisfy, so every theorem instantiates to the actual runtime. -/

structure MathFns (F : Type) where
  pi : F
  sqrt : F → F
  acos : F → F
  cos : F → F
  sin : F → F
  atan2 : F → F → F

variable {F : Type} [LinearOrderedField F] [FloorRing F]

/-- Truncated division quotient, rounding toward zero as the JavaScript
remainder operator does. -/
def truncDivF (x y : F) : ℤ :=
  if 0 ≤ x / y then ⌊x / y⌋ else ⌈x / y⌉

/-- The JavaScript remainder operator on finite operands: the remainder of
truncating division, carrying the sign of the dividend. -/
def jsFmod (x y : F) : F :=
  x - y * truncDivF x y

/-- toRadians from the source. -/
def toRadiansF (pi angle : F) : F := angle / 180 * pi

/-- toDegrees from the source. -/
def toDegreesF (pi angle : F) : F := angle / pi * 180

/-! ## Arc geometry solver (computeArc and helpers) -/

/-- Intermediate values of computeArc: the solved absolute center and the
two direction vectors (start − center)/radii and (end − center)/radii,
exactly as computed by the source lines up to the angle-extent step. -/
structure ArcInterm (F : Type) where
  cx : F
  cy : F
  ux : F
  uy : F
  vx : F
  vy : F
  deriving DecidableEq

/-- The prefix of computeArc: endpoint-to-center conversion (chord
midpoint rotation into the ellipse frame, radius correction, closed-form
local center with clamped radicand, rotation back) and the direction
vectors used for the sweep extent. -/
def computeArcInterm (M : MathFns F) (startX startY radiusX radiusY angle : F)
    (largeArcFlag sweepFlag : Bool) (endX endY : F) : ArcInterm F :=
  let dx2 := (startX - endX) / 2.0
  let dy2 := (startY - endY) / 2.0
  let phi := toRadiansF M.pi (jsFmod angle 360.0)
  let cosPhi := M.cos phi
  let sinPhi := M.sin phi
  let x1 := cosPhi * dx2 + sinPhi * dy2
  let y1 := -sinPhi * dx2 + cosPhi * dy2
  let rx0 := |radiusX|
  let ry0 := |radiusY|
  let prx0 := rx0 * rx0
  let pry0 := ry0 * ry0
  let px1 := x1 * x1
  let py1 := y1 * y1
  let radiiCheck := if prx0 ≠ 0 ∧ pry0 ≠ 0 then px1 / prx0 + py1 / pry0 else 0
  let rx := if radiiCheck > 1 then M.sqrt radiiCheck * rx0 else rx0
  let ry := if radiiCheck > 1 then M.sqrt radiiCheck * ry0 else ry0
  let prx := rx * rx
  let pry := ry * ry
  let sign : F := if largeArcFlag = sweepFlag then -1 else 1
  let sq0 := if prx * py1 + pry * px1 > 0 then
      (prx * pry - prx * py1 - pry * px1) / (prx * py1 + pry * px1) else 0
  let sq := max sq0 0
  let coef := sign * M.sqrt sq
  let cx1 := coef * ((rx * y1) / ry)
  let cy1 := if rx ≠ 0 then coef * -((ry * x1) / rx) else 0
  let sx2 := (startX + endX) / 2.0
  let sy2 := (startY + endY) / 2.0
  let cx := sx2 + (cosPhi * cx1 - sinPhi * cy1)
  let cy := sy2 + (sinPhi * cx1 + cosPhi * cy1)
  let ux := if rx ≠ 0 then (x1 - cx1) / rx else 0
  let uy := if ry ≠ 0 then (y1 - cy1) / ry else 0
  let vx := if rx ≠ 0 then (-x1 - cx1) / rx else 0
  let vy := if ry ≠ 0 then (-y1 - cy1) / ry else 0
  ⟨cx, cy, ux, uy, vx, vy⟩

/-- Post-processing of the raw angular extent (source lines 381 to 388):
sweep-flag adjustment by 360, then the final reduction that takes the
absolute value modulo 360 and applies the inverted sign. -/
def arcExtentAdjust (sweepFlag : Bool) (e : F) : F :=
  let e1 := if !sweepFlag ∧ e > 0 then e - 360
            else if sweepFlag ∧ e < 0 then e + 360
            else e
  let extentSign : F := if e1 < 0 then 1 else -1
  jsFmod |e1| 360 * extentSign

/-- Result of computeArc: solved center and signed angular extent. -/
structure ArcResult (F : Type) where
  cx : F
  cy : F
  angleExtent : F
  deriving DecidableEq

/-- computeArc: SVG elliptical-arc endpoint parameters to center point and
sweep extent in degrees.  A zero-length direction vector makes the
normalization factor n zero and yields the raw sentinel 719 before the
adjustment step. -/
def computeArc (M : MathFns F) (startX startY radiusX radiusY angle : F)
    (largeArcFlag sweepFlag : Bool) (endX endY : F) : ArcResult F :=
  let i := computeArcInterm M startX startY radiusX radiusY angle
    largeArcFlag sweepFlag endX endY
  let n := M.sqrt ((i.ux * i.ux + i.uy * i.uy) * (i.vx * i.vx + i.vy * i.vy))
  let p := i.ux * i.vx + i.uy * i.vy
  let signAngle : F := if i.ux * i.vy - i.uy * i.vx < 0 then -1 else 1
  let angleExtent := if n ≠ 0 then toDegreesF M.pi (signAngle * M.acos (p / n)) else 719
  ⟨i.cx, i.cy, arcExtentAdjust sweepFlag angleExtent⟩

/-- getMiddleArcPos: point at the angular midpoint of an arc. -/
def getMiddleArcPos (M : MathFns F) (centerX centerY radius angleStart angleEnd : F) :
    F × F :=
  (centerX + radius * M.cos ((angleStart + angleEnd) / 2 * (M.pi / 180)),
   centerY + radius * M.sin ((angleStart + angleEnd) / 2 * (M.pi / 180)))

/-- rotate: rotate a point around the origin (the source multiplies the
degree-to-radian factor by an extra 2; it is only ever called with a zero
angle). -/
def rotateJs (M : MathFns F) (x y degrees : F) : F × F :=
  let radians := degrees / 180 * 2 * M.pi
  (x * M.cos radians - y * M.sin radians,
   x * M.sin radians + y * M.cos radians)

/-! ## KiCad footprint helper functions -/

/-- angleToKi: convert rotation angles into the signed KiCad convention
(the source's non-finite branch is unreachable because toNumber always
yields a finite fallback). -/
def angleToKi (rotation : ℚ) : ℚ :=
  if rotation > 180 then -(360 - rotation) else rotation

/-- drillToKi: drill clause selection for round or oval pad holes. -/
def drillToKi (holeRadius holeLength padHeight padWidth : ℚ) : String :=
  if holeRadius > 0 ∧ holeLength ≠ 0 then
    let maxDistanceHole := max (holeRadius * 2) holeLength
    let pos0 := padHeight - maxDistanceHole
    let pos90 := padWidth - maxDistanceHole
    let maxDistance := max pos0 pos90
    if maxDistance = pos0 then
      "(drill oval " ++ toFixedQ 2 (holeRadius * 2) ++ " " ++ toFixedQ 2 holeLength ++ ")"
    else
      "(drill oval " ++ toFixedQ 2 holeLength ++ " " ++ toFixedQ 2 (holeRadius * 2) ++ ")"
  else if holeRadius > 0 then
    "(drill " ++ toFixedQ 2 (2 * holeRadius) ++ ")"
  else ""

/-! ## Input payload model

The CAD payload is a JSON object; optional or absent fields are modelled
with Option.  Numeric JSON fields are Option rationals (toNumber of an
absent field falls back to 0), string fields are Option String. -/

structure CPara where
  name : Option String
  pre : Option String
  package : Option String
  bomManufacturer : Option String
  bomJlcpcbPartClass : Option String
  model3dTitle : Option String
  deriving DecidableEq

structure DataHead where
  x : Option ℚ
  y : Option ℚ
  c_para : Option CPara
  deriving DecidableEq

structure DataStr where
  head : Option DataHead
  shape : Option (List String)
  deriving DecidableEq

structure LcscInfo where
  url : Option String
  number : Option String
  deriving DecidableEq

structure PackageDetail where
  title : Option String
  dataStr : Option DataStr
  deriving DecidableEq

structure CadData where
  dataStr : Option DataStr
  lcsc : Option LcscInfo
  smt : Option Bool
  packageDetail : Option PackageDetail
  deriving DecidableEq

/-- Attribute object of an SVGNODE payload after JSON parsing. -/
structure SvgAttrs where
  title : Option String
  uuid : Option String
  c_origin : Option String
  z : Option String
  c_rotation : Option String
  deriving DecidableEq

/-- JSON.parse followed by the attrs projection, abstract platform
primitive: none models both a parse exception and a missing attrs object
(either path lands in the catch block of the source). -/
def JsonAttrs := String → Option SvgAttrs

/-! ## Restricted SVG path tokenizer (parseSvgPath) -/

inductive SvgCmd where
  | M (startX startY : ℚ)
  | A (radiusX radiusY xAxisRotation : ℚ) (flagLargeArc flagSweep : Bool) (endX endY : ℚ)
  | L (posX posY : ℚ)
  | Z
  deriving DecidableEq

/-- Characters accepted as regexp command arguments. -/
def svgArgChar (c : Char) : Bool :=
  c = ' ' || c = ',' || c = '-' || c = '+' || c = '.' || c.isDigit

/-- Scanner equivalent to matchAll of letter-then-argument-run: a letter
followed by at least one argument character yields a match and scanning
resumes after the run; any other character is skipped. -/
def svgScanGo : Nat → List Char → List (Char × List Char)
  | 0, _ => []
  | _ + 1, [] => []
  | fuel + 1, c :: rest =>
    if c.isAlpha then
      let run := rest.takeWhile svgArgChar
      if run.isEmpty then svgScanGo fuel rest
      else (c, run) :: svgScanGo fuel (rest.drop run.length)
    else svgScanGo fuel rest

/-- Build one arc record from up to seven argument strings. -/
def svgACmd (l : List String) : SvgCmd :=
  SvgCmd.A (toNumber (l.get? 0)) (toNumber (l.get? 1)) (toNumber (l.get? 2))
    (l.get? 3 == some "1") (l.get? 4 == some "1")
    (toNumber (l.get? 5)) (toNumber (l.get? 6))

/-- Consume moveto arguments two at a time. -/
def svgMPairs : List String → List SvgCmd
  | [] => []
  | [a] => [SvgCmd.M (toNumber (some a)) (toNumber none)]
  | a :: b :: rest => SvgCmd.M (toNumber (some a)) (toNumber (some b)) :: svgMPairs rest

/-- Consume lineto arguments two at a time. -/
def svgLPairs : List String → List SvgCmd
  | [] => []
  | [a] => [SvgCmd.L (toNumber (some a)) (toNumber none)]
  | a :: b :: rest => SvgCmd.L (toNumber (some a)) (toNumber (some b)) :: svgLPairs rest

/-- Consume elliptical-arc arguments seven at a time. -/
def svgASeptets : List String → List SvgCmd
  | [] => []
  | a :: b :: c :: d :: e :: f :: g :: rest =>
    svgACmd [a, b, c, d, e, f, g] :: svgASeptets rest
  | l => [svgACmd l]

/-- Dispatch one scanned command with its split argument list. -/
def svgDispatch (cmd : Char) (args : List String) : List SvgCmd :=
  if cmd = 'M' then svgMPairs args
  else if cmd = 'A' then svgASeptets args
  else if cmd = 'L' then svgLPairs args
  else if cmd = 'Z' then [SvgCmd.Z]
  else []

/-- parseSvgPath: pad with a trailing space, turn commas into spaces, scan
command-and-arguments groups, and parse the supported commands. -/
def parseSvgPath (svgPath : Option String) : List SvgCmd :=
  let path0 := jsOrEmpty svgPath
  let path1 := if jsEndsWith " " path0 then path0 else path0 ++ " "
  let path2 := jsMapChars (fun c => if c = ',' then ' ' else c) path1
  (svgScanGo (path2.data.length + 1) path2.data).flatMap
    (fun m => svgDispatch m.1 (jsTrimSplitWs ⟨m.2⟩))

/-! ## Parsed symbol entity -/

structure PinSettings where
  isDisplayed : Bool
  type : ℚ
  number : String
  posX : ℚ
  posY : ℚ
  rotation : ℚ
  id : String
  isLocked : Bool
  deriving DecidableEq

structure PinPathInfo where
  path : String
  color : String
  deriving DecidableEq

structure PinNameInfo where
  isDisplayed : Bool
  posX : ℚ
  posY : ℚ
  rotation : ℚ
  text : String
  textAnchor : String
  font : String
  fontSize : ℚ
  deriving DecidableEq

structure PinDotInfo where
  isDisplayed : Bool
  circleX : ℚ
  circleY : ℚ
  deriving DecidableEq

structure PinClockInfo where
  isDisplayed : Bool
  path : String
  deriving DecidableEq

structure EePin where
  settings : PinSettings
  pinPath : PinPathInfo
  name : PinNameInfo
  dot : PinDotInfo
  clock : PinClockInfo
  deriving DecidableEq

structure EeRect where
  posX : ℚ
  posY : ℚ
  width : ℚ
  height : ℚ
  deriving DecidableEq

structure EePolyline where
  points : Option String
  fillColor : Bool
  deriving DecidableEq

structure EePath where
  paths : Option String
  deriving DecidableEq

structure EeCircle where
  centerX : ℚ
  centerY : ℚ
  radius : ℚ
  fillColor : Bool
  deriving DecidableEq

structure EeEllipse where
  centerX : ℚ
  centerY : ℚ
  radiusX : ℚ
  radiusY : ℚ
  deriving DecidableEq

structure EeArc where
  path : List SvgCmd
  fillColor : Bool
  deriving DecidableEq

/-- Symbol header metadata; prefixStr embeds the source field named after
the reference prefix of the part. -/
structure SymbolInfo where
  name : String
  prefixStr : String
  package : String
  manufacturer : String
  datasheet : String
  lcscId : String
  jlcId : String
  deriving DecidableEq

structure BBox where
  x : ℚ
  y : ℚ
  deriving DecidableEq

structure EeSymbol where
  info : SymbolInfo
  bbox : BBox
  pins : List EePin
  rectangles : List EeRect
  circles : List EeCircle
  arcs : List EeArc
  ellipses : List EeEllipse
  polylines : List EePolyline
  polygons : List EePolyline
  paths : List EePath
  deriving DecidableEq

/-- Parse one pin record (designator P) from its caret-caret segments. -/
def parsePinLine (line : String) : EePin :=
  let segments := jsSplitStr "^^" line
  let settingsFields := ((jsSplit1 '~' (segments.headD "")).drop 1)
  let pinPathFields := jsSplit1 '~' (jsOrEmpty (segments.get? 2))
  let pinNameFields := jsSplit1 '~' (jsOrEmpty (segments.get? 3))
  let pinDotBisFields := jsSplit1 '~' (jsOrEmpty (segments.get? 5))
  let pinClockFields := jsSplit1 '~' (jsOrEmpty (segments.get? 6))
  { settings :=
      { isDisplayed := toBool (settingsFields.get? 0)
        type := toNumber (settingsFields.get? 1)
        number := jsTrim (jsOrEmpty (settingsFields.get? 2))
        posX := toNumber (settingsFields.get? 3)
        posY := toNumber (settingsFields.get? 4)
        rotation := toNumber (settingsFields.get? 5)
        id := jsOrEmpty (settingsFields.get? 6)
        isLocked := toBool (settingsFields.get? 7) }
    pinPath :=
      { path := jsMapChars (fun c => if c = 'v' then 'h' else c)
          (jsOrEmpty (pinPathFields.get? 0))
        color := jsOrEmpty (pinPathFields.get? 1) }
    name :=
      { isDisplayed := toBool (pinNameFields.get? 0)
        posX := toNumber (pinNameFields.get? 1)
        posY := toNumber (pinNameFields.get? 2)
        rotation := toNumber (pinNameFields.get? 3)
        text := jsOrEmpty (pinNameFields.get? 4)
        textAnchor := jsOrEmpty (pinNameFields.get? 5)
        font := jsOrEmpty (pinNameFields.get? 6)
        fontSize :=
          if jsIncludes "pt" (jsOrEmpty (pinNameFields.get? 7)) then
            toNumber (some (jsReplaceFirst "pt" "" (jsOrEmpty (pinNameFields.get? 7)))) 7
          else toNumber (pinNameFields.get? 7) 7 }
    dot :=
      { isDisplayed := toBool (pinDotBisFields.get? 0)
        circleX := toNumber (pinDotBisFields.get? 1)
        circleY := toNumber (pinDotBisFields.get? 2) }
    clock :=
      { isDisplayed := toBool (pinClockFields.get? 0)
        path := jsOrEmpty (pinClockFields.get? 1) } }

/-- parseEasyedaSymbol: read the CAD payload into a normalized symbol. -/
def parseEasyedaSymbol (cadData : CadData) : EeSymbol :=
  let info := ((cadData.dataStr.bind (·.head)).bind (·.c_para)).getD
    ⟨none, none, none, none, none, none⟩
  let lcsc := cadData.lcsc.getD ⟨none, none⟩
  let bbox : BBox :=
    { x := ((cadData.dataStr.bind (·.head)).bind (·.x)).getD 0
      y := ((cadData.dataStr.bind (·.head)).bind (·.y)).getD 0 }
  let init : EeSymbol :=
    { info :=
        { name := jsOrEmpty info.name
          prefixStr := jsReplaceFirst "?" "" (jsOrEmpty info.pre)
          package := jsOrEmpty info.package
          manufacturer := jsOrEmpty info.bomManufacturer
          datasheet := jsOrEmpty lcsc.url
          lcscId := jsOrEmpty lcsc.number
          jlcId := jsOrEmpty info.bomJlcpcbPartClass }
      bbox := bbox
      pins := [], rectangles := [], circles := [], arcs := [],
      ellipses := [], polylines := [], polygons := [], paths := [] }
  let shapes := (cadData.dataStr.bind (·.shape)).getD []
  shapes.foldl (fun sym line =>
    let designator := (jsSplit1 '~' line).headD ""
    if designator = "P" then
      { sym with pins := sym.pins ++ [parsePinLine line] }
    else if designator = "R" then
      let fields := (jsSplit1 '~' line).drop 1
      { sym with rectangles := sym.rectangles ++
          [{ posX := toNumber (fields.get? 0), posY := toNumber (fields.get? 1),
             width := toNumber (fields.get? 4), height := toNumber (fields.get? 5) }] }
    else if designator = "PL" then
      let fields := (jsSplit1 '~' line).drop 1
      { sym with polylines := sym.polylines ++
          [{ points := fields.get? 0,
             fillColor := (jsOrEmpty (fields.get? 4)).toLower ≠ "none" }] }
    else if designator = "PG" then
      let fields := (jsSplit1 '~' line).drop 1
      { sym with polygons := sym.polygons ++
          [{ points := fields.get? 0, fillColor := true }] }
    else if designator = "PT" then
      let fields := (jsSplit1 '~' line).drop 1
      { sym with paths := sym.paths ++ [{ paths := fields.get? 0 }] }
    else if designator = "C" then
      let fields := (jsSplit1 '~' line).drop 1
      { sym with circles := sym.circles ++
          [{ centerX := toNumber (fields.get? 0), centerY := toNumber (fields.get? 1),
             radius := toNumber (fields.get? 2),
             fillColor := (jsOrEmpty (fields.get? 5)).toLower ≠ "none" }] }
    else if designator = "E" then
      let fields := (jsSplit1 '~' line).drop 1
      { sym with ellipses := sym.ellipses ++
          [{ centerX := toNumber (fields.get? 0), centerY := toNumber (fields.get? 1),
             radiusX := toNumber (fields.get? 2), radiusY := toNumber (fields.get? 3) }] }
    else if designator = "A" then
      let fields := (jsSplit1 '~' line).drop 1
      { sym with arcs := sym.arcs ++
          [{ path := parseSvgPath (fields.get? 0),
             fillColor := (jsOrEmpty (fields.get? 4)).toLower ≠ "none" }] }
    else sym) init

/-! ## Parsed footprint entity -/

structure FpPad where
  shape : String
  centerX : ℚ
  centerY : ℚ
  width : ℚ
  height : ℚ
  layerId : ℚ
  net : String
  number : String
  holeRadius : ℚ
  points : String
  rotation : ℚ
  id : String
  holeLength : ℚ
  holePoint : String
  isPlated : Bool
  isLocked : Bool
  deriving DecidableEq

structure FpTrack where
  strokeWidth : ℚ
  layerId : ℚ
  net : String
  points : String
  id : String
  isLocked : Bool
  deriving DecidableEq

structure FpHole where
  centerX : ℚ
  centerY : ℚ
  radius : ℚ
  id : String
  isLocked : Bool
  deriving DecidableEq

structure FpVia where
  centerX : ℚ
  centerY : ℚ
  diameter : ℚ
  net : String
  radius : ℚ
  id : String
  isLocked : Bool
  deriving DecidableEq

structure FpCircle where
  cx : ℚ
  cy : ℚ
  radius : ℚ
  strokeWidth : ℚ
  layerId : ℚ
  id : String
  isLocked : Bool
  deriving DecidableEq

structure FpArc where
  strokeWidth : ℚ
  layerId : ℚ
  net : String
  path : String
  helperDots : String
  id : String
  isLocked : Bool
  deriving DecidableEq

structure FpRect where
  x : ℚ
  y : ℚ
  width : ℚ
  height : ℚ
  strokeWidth : ℚ
  id : String
  layerId : ℚ
  isLocked : Bool
  deriving DecidableEq

structure FpText where
  type : String
  centerX : ℚ
  centerY : ℚ
  strokeWidth : ℚ
  rotation : ℚ
  mirror : String
  layerId : ℚ
  net : String
  fontSize : ℚ
  text : String
  textPath : String
  isDisplayed : Bool
  id : String
  isLocked : Bool
  deriving DecidableEq

structure Vec3 where
  x : ℚ
  y : ℚ
  z : ℚ
  deriving DecidableEq

structure Model3D where
  name : String
  uuid : String
  translation : Vec3
  rotation : Vec3
  deriving DecidableEq

structure FpInfo where
  name : String
  fpType : String
  model3dName : String
  deriving DecidableEq

structure Footprint where
  info : FpInfo
  bbox : BBox
  model3d : Option Model3D
  pads : List FpPad
  tracks : List FpTrack
  holes : List FpHole
  vias : List FpVia
  circles : List FpCircle
  arcs : List FpArc
  rectangles : List FpRect
  texts : List FpText
  deriving DecidableEq

/-- parseEasyedaFootprint: read the package payload into a normalized
footprint; the SVGNODE 3D-model metadata goes through the abstract JSON
primitive, and a failed parse leaves the model reference unset. -/
def parseEasyedaFootprint (J : JsonAttrs) (cadData : CadData) : Footprint :=
  let dataStr := cadData.packageDetail.bind (·.dataStr)
  let info := ((dataStr.bind (·.head)).bind (·.c_para)).getD
    ⟨none, none, none, none, none, none⟩
  let isSmd := cadData.smt.getD false &&
    !jsIncludes "-TH_" (jsOrEmpty (cadData.packageDetail.bind (·.title)))
  let init : Footprint :=
    { info :=
        { name := jsOrEmpty info.package
          fpType := if isSmd then "smd" else "tht"
          model3dName := jsOrEmpty info.model3dTitle }
      bbox :=
        { x := ((dataStr.bind (·.head)).bind (·.x)).getD 0
          y := ((dataStr.bind (·.head)).bind (·.y)).getD 0 }
      model3d := none
      pads := [], tracks := [], holes := [], vias := [], circles := [],
      arcs := [], rectangles := [], texts := [] }
  let shapes := (dataStr.bind (·.shape)).getD []
  shapes.foldl (fun fp line =>
    let parts := jsSplit1 '~' line
    let designator := parts.headD ""
    let fields := parts.drop 1
    if designator = "PAD" then
      { fp with pads := fp.pads ++
          [{ shape := jsOrEmpty (fields.get? 0)
             centerX := toNumber (fields.get? 1)
             centerY := toNumber (fields.get? 2)
             width := toNumber (fields.get? 3)
             height := toNumber (fields.get? 4)
             layerId := toNumber (fields.get? 5)
             net := jsOrEmpty (fields.get? 6)
             number := jsOrEmpty (fields.get? 7)
             holeRadius := toNumber (fields.get? 8)
             points := jsOrEmpty (fields.get? 9)
             rotation := toNumber (fields.get? 10)
             id := jsOrEmpty (fields.get? 11)
             holeLength := toNumber (fields.get? 12)
             holePoint := jsOrEmpty (fields.get? 13)
             isPlated := toBool (fields.get? 14)
             isLocked := toBool (fields.get? 15) }] }
    else if designator = "TRACK" then
      { fp with tracks := fp.tracks ++
          [{ strokeWidth := toNumber (fields.get? 0)
             layerId := toNumber (fields.get? 1)
             net := jsOrEmpty (fields.get? 2)
             points := jsOrEmpty (fields.get? 3)
             id := jsOrEmpty (fields.get? 4)
             isLocked := toBool (fields.get? 5) }] }
    else if designator = "HOLE" then
      { fp with holes := fp.holes ++
          [{ centerX := toNumber (fields.get? 0)
             centerY := toNumber (fields.get? 1)
             radius := toNumber (fields.get? 2)
             id := jsOrEmpty (fields.get? 3)
             isLocked := toBool (fields.get? 4) }] }
    else if designator = "VIA" then
      { fp with vias := fp.vias ++
          [{ centerX := toNumber (fields.get? 0)
             centerY := toNumber (fields.get? 1)
             diameter := toNumber (fields.get? 2)
             net := jsOrEmpty (fields.get? 3)
             radius := toNumber (fields.get? 4)
             id := jsOrEmpty (fields.get? 5)
             isLocked := toBool (fields.get? 6) }] }
    else if designator = "CIRCLE" then
      { fp with circles := fp.circles ++
          [{ cx := toNumber (fields.get? 0)
             cy := toNumber (fields.get? 1)
             radius := toNumber (fields.get? 2)
             strokeWidth := toNumber (fields.get? 3)
             layerId := toNumber (fields.get? 4)
             id := jsOrEmpty (fields.get? 5)
             isLocked := toBool (fields.get? 6) }] }
    else if designator = "ARC" then
      { fp with arcs := fp.arcs ++
          [{ strokeWidth := toNumber (fields.get? 0)
             layerId := toNumber (fields.get? 1)
             net := jsOrEmpty (fields.get? 2)
             path := jsOrEmpty (fields.get? 3)
             helperDots := jsOrEmpty (fields.get? 4)
             id := jsOrEmpty (fields.get? 5)
             isLocked := toBool (fields.get? 6) }] }
    else if designator = "RECT" then
      { fp with rectangles := fp.rectangles ++
          [{ x := toNumber (fields.get? 0)
             y := toNumber (fields.get? 1)
             width := toNumber (fields.get? 2)
             height := toNumber (fields.get? 3)
             strokeWidth := toNumber (fields.get? 4)
             id := jsOrEmpty (fields.get? 5)
             layerId := toNumber (fields.get? 6)
             isLocked := toBool (fields.get? 7) }] }
    else if designator = "TEXT" then
      { fp with texts := fp.texts ++
          [{ type := jsOrEmpty (fields.get? 0)
             centerX := toNumber (fields.get? 1)
             centerY := toNumber (fields.get? 2)
             strokeWidth := toNumber (fields.get? 3)
             rotation := toNumber (fields.get? 4)
             mirror := jsOrEmpty (fields.get? 5)
             layerId := toNumber (fields.get? 6)
             net := jsOrEmpty (fields.get? 7)
             fontSize := toNumber (fields.get? 8)
             text := jsOrEmpty (fields.get? 9)
             textPath := jsOrEmpty (fields.get? 10)
             isDisplayed := toBool (fields.get? 11)
             id := jsOrEmpty (fields.get? 12)
             isLocked := toBool (fields.get? 13) }] }
    else if designator = "SVGNODE" then
      match fields.get? 0 with
      | none => fp
      | some rawJson =>
        match J rawJson with
        | none => fp
        | some attrs =>
          { fp with model3d := some (
              { name := jsOrEmpty attrs.title
                uuid := jsOrEmpty attrs.uuid
                translation :=
                  { x := toNumber ((jsSplit1 ',' (jsOrDef "0,0" attrs.c_origin)).get? 0)
                    y := toNumber ((jsSplit1 ',' (jsOrDef "0,0" attrs.c_origin)).get? 1)
                    z := toNumber attrs.z }
                rotation :=
                  { x := toNumber ((jsSplit1 ',' (jsOrDef "0,0,0" attrs.c_rotation)).get? 0)
                    y := toNumber ((jsSplit1 ',' (jsOrDef "0,0,0" attrs.c_rotation)).get? 1)
                    z := toNumber ((jsSplit1 ',' (jsOrDef "0,0,0" attrs.c_rotation)).get? 2) } } : Model3D) }
    else fp) init

/-! ## Geometry converter: footprint -/

/-- convertFootprintToKiCad: scale every coordinate and dimension into
millimeters; arcs pass through unchanged; the 3D-model transform is
rebased against the bounding box, its Y translation negated, its Z
translation negated only for surface-mount parts (zero otherwise), and
each rotation axis mapped through 360 minus the converted value, modulo
360. -/
def convertFootprintToKiCad (footprint : Footprint) : Footprint :=
  let bbox : BBox :=
    { x := convertToMm footprint.bbox.x, y := convertToMm footprint.bbox.y }
  { info := footprint.info
    bbox := bbox
    pads := footprint.pads.map (fun pad =>
      { pad with
        centerX := convertToMm pad.centerX
        centerY := convertToMm pad.centerY
        width := convertToMm pad.width
        height := convertToMm pad.height
        holeRadius := convertToMm pad.holeRadius
        holeLength := convertToMm pad.holeLength })
    tracks := footprint.tracks.map (fun track =>
      { track with strokeWidth := convertToMm track.strokeWidth })
    holes := footprint.holes.map (fun hole =>
      { hole with
        centerX := convertToMm hole.centerX
        centerY := convertToMm hole.centerY
        radius := convertToMm hole.radius })
    vias := footprint.vias.map (fun via =>
      { via with
        centerX := convertToMm via.centerX
        centerY := convertToMm via.centerY
        diameter := convertToMm via.diameter
        radius := convertToMm via.radius })
    circles := footprint.circles.map (fun circle =>
      { circle with
        cx := convertToMm circle.cx
        cy := convertToMm circle.cy
        radius := convertToMm circle.radius
        strokeWidth := convertToMm circle.strokeWidth })
    arcs := footprint.arcs
    rectangles := footprint.rectangles.map (fun rect =>
      { rect with
        x := convertToMm rect.x
        y := convertToMm rect.y
        width := convertToMm rect.width
        height := convertToMm rect.height })
    texts := footprint.texts.map (fun text =>
      { text with
        centerX := convertToMm text.centerX
        centerY := convertToMm text.centerY
        strokeWidth := convertToMm text.strokeWidth
        fontSize := convertToMm text.fontSize })
    model3d := footprint.model3d.map (fun m =>
      { m with
        translation :=
          { x := convertToMm m.translation.x - bbox.x
            y := -(convertToMm m.translation.y - bbox.y)
            z := if footprint.info.fpType = "smd"
                 then -convertToMm m.translation.z else 0 }
        rotation :=
          { x := jsFmod (360 - convertToMm m.rotation.x) 360
            y := jsFmod (360 - convertToMm m.rotation.y) 360
            z := jsFmod (360 - convertToMm m.rotation.z) 360 } }) }

/-! ## Geometry converter: symbol -/

structure KiPin where
  name : String
  number : String
  style : String
  length : ℚ
  type : String
  orientation : ℚ
  posX : ℚ
  posY : ℚ
  deriving DecidableEq

structure KiRect where
  posX0 : ℚ
  posY0 : ℚ
  posX1 : ℚ
  posY1 : ℚ
  deriving DecidableEq

structure KiCircle where
  posX : ℚ
  posY : ℚ
  radius : ℚ
  background : Bool
  deriving DecidableEq

structure KiArc where
  startX : ℚ
  startY : ℚ
  middleX : ℚ
  middleY : ℚ
  endX : ℚ
  endY : ℚ
  fill : Bool
  deriving DecidableEq

/-- Polyline points may be undefined numbers (a closepath before any
moveto pushes an undefined first coordinate), modelled as Option. -/
structure KiPoly where
  points : List (Option ℚ × Option ℚ)
  isClosed : Bool
  deriving DecidableEq

structure KiSymbol where
  info : SymbolInfo
  pins : List KiPin
  rectangles : List KiRect
  circles : List KiCircle
  arcs : List KiArc
  polygons : List KiPoly
  deriving DecidableEq

/-- EASYEDA_PIN_TYPE_MAP lookup. -/
def pinTypeMap (t : ℚ) : Option String :=
  if t = 0 then some "unspecified"
  else if t = 1 then some "input"
  else if t = 2 then some "output"
  else if t = 3 then some "bidirectional"
  else if t = 4 then some "power_in"
  else none

/-- Point pairs of a polyline/polygon record: X entries and negated Y
entries, consumed two raw tokens at a time (a missing Y token coerces
through toNumber to the fallback). -/
def polyPairsGo (bb : BBox) : List String → List ℚ × List ℚ
  | [] => ([], [])
  | [a] => ([pxToMm (toNumber (some a) - bb.x)], [-pxToMm (toNumber none - bb.y)])
  | a :: b :: rest =>
    let (xs, ys) := polyPairsGo bb rest
    (pxToMm (toNumber (some a) - bb.x) :: xs,
     -pxToMm (toNumber (some b) - bb.y) :: ys)

/-- convertPolyline: split the raw point string, convert pairwise, close
the outline when requested, and reject an empty point list (unreachable,
the split always yields at least one token). -/
def convertPolyline (bb : BBox) (points : Option String) (closeIfFilled : Bool) :
    Option KiPoly :=
  let rawPts := jsTrimSplitWs (jsOrEmpty points)
  let (xs0, ys0) := polyPairsGo bb rawPts
  let xs := if closeIfFilled then xs0 ++ [xs0.headD 0] else xs0
  let ys := if closeIfFilled then ys0 ++ [ys0.headD 0] else ys0
  if xs.isEmpty ∨ ys.isEmpty then none
  else some
    { points := (xs.zip ys).map (fun p => (some p.1, some p.2))
      isClosed := xs.headD 0 = xs.getLastD 0 }

/-- Path-record walk: moveto and lineto consume two following tokens,
closepath re-pushes the first collected coordinate (undefined when none
exists yet), any other token is skipped. -/
def pathPtsGo (bb : BBox) (xs ys : List (Option ℚ)) :
    List String → List (Option ℚ) × List (Option ℚ)
  | [] => (xs, ys)
  | t :: rest =>
    if t = "M" ∨ t = "L" then
      match rest with
      | a :: b :: rest2 =>
        pathPtsGo bb (xs ++ [some (pxToMm (toNumber (some a) - bb.x))])
          (ys ++ [some (-pxToMm (toNumber (some b) - bb.y))]) rest2
      | [a] =>
        pathPtsGo bb (xs ++ [some (pxToMm (toNumber (some a) - bb.x))])
          (ys ++ [some (-pxToMm (toNumber none - bb.y))]) []
      | [] =>
        pathPtsGo bb (xs ++ [some (pxToMm (toNumber none - bb.x))])
          (ys ++ [some (-pxToMm (toNumber none - bb.y))]) []
    else if t = "Z" then
      pathPtsGo bb (xs ++ [xs.headD none]) (ys ++ [ys.headD none]) rest
    else
      pathPtsGo bb xs ys rest

/-- convertSymbolToKiCad: convert pins, graphics and path records into
KiCad coordinates (bounding-box rebased, symbol scale, Y negated). -/
def convertSymbolToKiCad (M : MathFns ℚ) (symbol : EeSymbol) : KiSymbol :=
  let bb := symbol.bbox
  let pins := symbol.pins.map (fun pin =>
    let pinLengthRaw := (jsSplit1 'h' pin.pinPath.path).getLastD ""
    let pinLength := |toNumber (some pinLengthRaw)|
    let style :=
      if pin.dot.isDisplayed && pin.clock.isDisplayed then "inverted_clock"
      else if pin.dot.isDisplayed then "inverted"
      else if pin.clock.isDisplayed then "clock"
      else "line"
    let type := (pinTypeMap pin.settings.type).getD "unspecified"
    ({ name := stripWs pin.name.text
       number := stripWs pin.settings.number
       style := style
       length := pxToMm pinLength
       type := type
       orientation := jsFmod (180 + pin.settings.rotation) 360
       posX := pxToMm (pin.settings.posX - bb.x)
       posY := -pxToMm (pin.settings.posY - bb.y) } : KiPin))
  let rectangles := symbol.rectangles.map (fun rect =>
    let posX0 := pxToMm (rect.posX - bb.x)
    let posY0 := -pxToMm (rect.posY - bb.y)
    ({ posX0 := posX0, posY0 := posY0,
       posX1 := posX0 + pxToMm rect.width,
       posY1 := posY0 - pxToMm rect.height } : KiRect))
  let circles := symbol.circles.map (fun circle =>
    ({ posX := pxToMm (circle.centerX - bb.x)
       posY := -pxToMm (circle.centerY - bb.y)
       radius := pxToMm circle.radius
       background := circle.fillColor } : KiCircle))
  let ellipses := (symbol.ellipses.filter
      (fun e => e.radiusX = e.radiusY)).map (fun e =>
    ({ posX := pxToMm (e.centerX - bb.x)
       posY := -pxToMm (e.centerY - bb.y)
       radius := pxToMm e.radiusX
       background := false } : KiCircle))
  let arcs := symbol.arcs.foldl (fun acc arc =>
    match arc.path with
    | SvgCmd.M mx my :: SvgCmd.A rx ry rot la sw ax ay :: _ =>
      let startX := pxToMm (mx - bb.x)
      let startY := -pxToMm (my - bb.y)
      let endX := pxToMm (ax - bb.x)
      let endY := -pxToMm (ay - bb.y)
      let radius := pxToMm (max rx ry)
      let arcInfo := computeArc M startX startY (pxToMm rx) (pxToMm ry)
        rot la (!sw) endX endY
      let startAngle := toDegreesF M.pi (M.atan2 (startY - arcInfo.cy) (startX - arcInfo.cx))
      let endAngle := startAngle + arcInfo.angleExtent
      let middle := getMiddleArcPos M arcInfo.cx arcInfo.cy radius startAngle endAngle
      acc ++ [({ startX := startX, startY := startY,
                 middleX := middle.1, middleY := middle.2,
                 endX := endX, endY := endY, fill := arc.fillColor } : KiArc)]
    | _ => acc) []
  let polysFromPolylines := symbol.polylines.foldl (fun acc polyline =>
    match convertPolyline bb polyline.points polyline.fillColor with
    | some poly => acc ++ [poly]
    | none => acc) []
  let polysWithPolygons := symbol.polygons.foldl (fun acc polygon =>
    match convertPolyline bb polygon.points true with
    | some poly => acc ++ [poly]
    | none => acc) polysFromPolylines
  let polygons := symbol.paths.foldl (fun acc path =>
    let rawPts := jsTrimSplitWs (jsOrEmpty path.paths)
    let (xs, ys) := pathPtsGo bb [] [] rawPts
    if !xs.isEmpty ∧ !ys.isEmpty then
      acc ++ [({ points := xs.zip ys,
                 isClosed := xs.headD none = xs.getLastD none } : KiPoly)]
    else acc) polysWithPolygons
  { info := symbol.info
    pins := pins
    rectangles := rectangles
    circles := circles ++ ellipses
    arcs := arcs
    polygons := polygons }

/-! ## Footprint exporter -/

/-- Runtime exceptions of the embedded code: the only reachable one is a
TypeError from reading a property of undefined. -/
inductive JsError where
  | typeError
  deriving DecidableEq

/-- Template placeholder substitution: replace the first occurrence of the
braced placeholder name, as the source replace calls do. -/
def repl (pat v s : String) : String :=
  jsReplaceFirst ("\x7b" ++ pat ++ "\x7d") v s

/-- KI_FOOTPRINT_TEMPLATES from the source, verbatim. -/
def tplModuleInfo : String :=
  "(module \x7bpackageLib\x7d:\x7bpackageName\x7d (layer F.Cu) (tedit \x7bedit\x7d)\n"

def tplFpType : String := "\t(attr \x7bcomponentType\x7d)\n"

def tplReference : String :=
  "\t(fp_text reference REF** (at \x7bposX\x7d \x7bposY\x7d) (layer F.SilkS)\n\t\t(effects (font (size 1 1) (thickness 0.15)))\n\t)\n"

def tplValue : String :=
  "\t(fp_text value \x7bpackageName\x7d (at \x7bposX\x7d \x7bposY\x7d) (layer F.Fab)\n\t\t(effects (font (size 1 1) (thickness 0.15)))\n\t)\n"

def tplFabRef : String :=
  "\t(fp_text user %R (at 0 0) (layer F.Fab)\n\t\t(effects (font (size 1 1) (thickness 0.15)))\n\t)\n"

def tplPad : String :=
  "\t(pad \x7bnumber\x7d \x7btype\x7d \x7bshape\x7d (at \x7bposX\x7d \x7bposY\x7d \x7borientation\x7d) (size \x7bwidth\x7d \x7bheight\x7d) (layers \x7blayers\x7d)\x7bdrill\x7d\x7bpolygon\x7d)\n"

def tplLine : String :=
  "\t(fp_line (start \x7bstartX\x7d \x7bstartY\x7d) (end \x7bendX\x7d \x7bendY\x7d) (layer \x7blayers\x7d) (width \x7bstrokeWidth\x7d))\n"

def tplHole : String :=
  "\t(pad \"\" thru_hole circle (at \x7bposX\x7d \x7bposY\x7d) (size \x7bsize\x7d \x7bsize\x7d) (drill \x7bsize\x7d) (layers *.Cu *.Mask))\n"

def tplVia : String :=
  "\t(pad \"\" thru_hole circle (at \x7bposX\x7d \x7bposY\x7d) (size \x7bdiameter\x7d \x7bdiameter\x7d) (drill \x7bsize\x7d) (layers *.Cu *.Paste *.Mask))\n"

def tplCircle : String :=
  "\t(fp_circle (center \x7bcx\x7d \x7bcy\x7d) (end \x7bendX\x7d \x7bendY\x7d) (layer \x7blayers\x7d) (width \x7bstrokeWidth\x7d))\n"

def tplArc : String :=
  "\t(fp_arc (start \x7bstartX\x7d \x7bstartY\x7d) (end \x7bendX\x7d \x7bendY\x7d) (angle \x7bangle\x7d) (layer \x7blayers\x7d) (width \x7bstrokeWidth\x7d))\n"

def tplText : String :=
  "\t(fp_text user \x7btext\x7d (at \x7bposX\x7d \x7bposY\x7d \x7borientation\x7d) (layer \x7blayers\x7d)\x7bdisplay\x7d\n\t\t(effects (font (size \x7bfontSize\x7d \x7bfontSize\x7d) (thickness \x7bthickness\x7d)) (justify left\x7bmirror\x7d))\n\t)\n"

def tplModel3d : String :=
  "\t(model \"\x7bfile3d\x7d\"\n\t\t(offset (xyz \x7bposX\x7d \x7bposY\x7d \x7bposZ\x7d))\n\t\t(scale (xyz 1 1 1))\n\t\t(rotate (xyz \x7brotX\x7d \x7brotY\x7d \x7brotZ\x7d))\n\t)\n"

/-- KI_PAD_SHAPE lookup. -/
def kiPadShape (s : String) : Option String :=
  if s = "ELLIPSE" then some "circle"
  else if s = "RECT" then some "rect"
  else if s = "OVAL" then some "oval"
  else if s = "POLYGON" then some "custom"
  else none

/-- KI_PAD_LAYER lookup (surface pads and graphics). -/
def kiPadLayer (q : ℚ) : Option String :=
  if q = 1 then some "F.Cu F.Paste F.Mask"
  else if q = 2 then some "B.Cu B.Paste B.Mask"
  else if q = 3 then some "F.SilkS"
  else if q = 11 then some "*.Cu *.Paste *.Mask"
  else if q = 13 then some "F.Fab"
  else if q = 15 then some "Dwgs.User"
  else none

/-- KI_PAD_LAYER_THT lookup (through-hole pads). -/
def kiPadLayerTht (q : ℚ) : Option String :=
  if q = 1 then some "F.Cu F.Mask"
  else if q = 2 then some "B.Cu B.Mask"
  else if q = 3 then some "F.SilkS"
  else if q = 11 then some "*.Cu *.Mask"
  else if q = 13 then some "F.Fab"
  else if q = 15 then some "Dwgs.User"
  else none

/-- KI_LAYERS lookup (graphics and text). -/
def kiLayers (q : ℚ) : Option String :=
  if q = 1 then some "F.Cu"
  else if q = 2 then some "B.Cu"
  else if q = 3 then some "F.SilkS"
  else if q = 4 then some "B.SilkS"
  else if q = 5 then some "F.Paste"
  else if q = 6 then some "B.Paste"
  else if q = 7 then some "F.Mask"
  else if q = 8 then some "B.Mask"
  else if q = 10 then some "Edge.Cuts"
  else if q = 11 then some "Edge.Cuts"
  else if q = 12 then some "Cmts.User"
  else if q = 13 then some "F.Fab"
  else if q = 14 then some "B.Fab"
  else if q = 15 then some "Dwgs.User"
  else if q = 101 then some "F.Fab"
  else none

/-- Minimum of a pad-derived list (guarded non-empty by the caller). -/
def listMin : List ℚ → ℚ
  | [] => 0
  | h :: t => t.foldl min h

def listMax : List ℚ → ℚ
  | [] => 0
  | h :: t => t.foldl max h

/-- Outline entries of a custom pad: coordinate pairs re-expressed
relative to the pad center; a missing trailing Y renders as NaN exactly
as an undefined minus a number does under toFixed. -/
def padPolyPathGo (bbx bby cx cy : ℚ) : List ℚ → List String
  | [] => []
  | [x] =>
    ["(xy " ++ toFixedQ 2 ((x - bbx) - (cx - bbx)) ++ " NaN)"]
  | x :: y :: rest =>
    ("(xy " ++ toFixedQ 2 ((x - bbx) - (cx - bbx)) ++ " " ++
       toFixedQ 2 ((y - bby) - (cy - bby)) ++ ")") :: padPolyPathGo bbx bby cx cy rest

/-- Shape parameters of one emitted pad (source lines 1239 to 1262): the
mapped shape with fallback custom, clamped size, KiCad orientation, and
for custom shapes with outline points the forced near-zero size, zero
orientation and rebased outline primitive. -/
structure PadParams where
  shape : String
  width : ℚ
  height : ℚ
  orientation : ℚ
  polygon : String
  deriving DecidableEq

def padRenderParams (bb : BBox) (pad : FpPad) : PadParams :=
  let shape := (kiPadShape pad.shape).getD "custom"
  let width := max pad.width 0.01
  let height := max pad.height 0.01
  let orientation := angleToKi pad.rotation
  if shape = "custom" then
    let points := (jsSplit1 ' ' pad.points).map (fun s => fpToKi (some s))
    if points.length ≠ 0 then
      let path := padPolyPathGo bb.x bb.y pad.centerX pad.centerY points
      { shape := shape, width := 0.005, height := 0.005, orientation := 0,
        polygon := "\n\t\t(primitives \n\t\t\t(gr_poly \n\t\t\t\t(pts " ++
          joinSep " " path ++
          "\n\t\t\t\t) \n\t\t\t\t(width 0.1) \n\t\t\t)\n\t\t)\n\t" }
    else
      { shape := shape, width := width, height := height,
        orientation := orientation, polygon := "" }
  else
    { shape := shape, width := width, height := height,
      orientation := orientation, polygon := "" }

/-- Emit one pad (the body of the pad loop). -/
def exportFpPad (bb : BBox) (pad : FpPad) : String :=
  let params := padRenderParams bb pad
  let layers :=
    if pad.holeRadius ≤ 0 then (kiPadLayer pad.layerId).getD ""
    else (kiPadLayerTht pad.layerId).getD ""
  let drill := drillToKi pad.holeRadius pad.holeLength params.height params.width
  let number0 := pad.number
  let number :=
    if jsIncludes "(" number0 && jsIncludes ")" number0 then
      jsOrEmpty ((jsSplit1 ')' (jsOrEmpty ((jsSplit1 '(' number0).get? 1))).get? 0)
    else number0
  tplPad
    |> repl "number" number
    |> repl "type" (if pad.holeRadius > 0 then "thru_hole" else "smd")
    |> repl "shape" params.shape
    |> repl "posX" (toFixedQ 2 (pad.centerX - bb.x))
    |> repl "posY" (toFixedQ 2 (pad.centerY - bb.y))
    |> repl "orientation" (toFixedQ 2 params.orientation)
    |> repl "width" (toFixedQ 2 params.width)
    |> repl "height" (toFixedQ 2 params.height)
    |> repl "layers" layers
    |> repl "drill" (if drill ≠ "" then " " ++ drill else "")
    |> repl "polygon" params.polygon

/-- Consecutive line segments of one track: while three points remain,
emit a segment from the current pair to the next pair (whose second
coordinate may fall off the end and render as NaN), then advance by one
pair. -/
def trackSegsGo (bb : BBox) (layers strokeWidth : String) : List ℚ → String
  | x :: y :: z :: rest =>
    (tplLine
      |> repl "startX" (toFixedQ 2 (x - bb.x))
      |> repl "startY" (toFixedQ 2 (y - bb.y))
      |> repl "endX" (toFixedQ 2 (z - bb.x))
      |> repl "endY" (match rest.head? with
        | some w => toFixedQ 2 (w - bb.y)
        | none => "NaN")
      |> repl "layers" layers
      |> repl "strokeWidth" strokeWidth) ++
    trackSegsGo bb layers strokeWidth (z :: rest)
  | _ => ""

/-- Emit one track as its consecutive segments. -/
def exportFpTrack (bb : BBox) (track : FpTrack) : String :=
  let points := (jsTrimSplitWs track.points).map (fun s => fpToKi (some s))
  trackSegsGo bb ((kiPadLayer track.layerId).getD "F.Fab")
    (toFixedQ 2 (max track.strokeWidth 0.01)) points

/-- Emit one rectangle as four line segments. -/
def exportFpRect (bb : BBox) (rect : FpRect) : String :=
  let startX := rect.x - bb.x
  let startY := rect.y - bb.y
  let width := rect.width
  let height := rect.height
  let segs : List (ℚ × ℚ × ℚ × ℚ) :=
    [(startX, startY, startX + width, startY),
     (startX + width, startY, startX + width, startY + height),
     (startX + width, startY + height, startX, startY + height),
     (startX, startY + height, startX, startY)]
  (segs.map (fun s =>
    tplLine
      |> repl "startX" (toFixedQ 2 s.1)
      |> repl "startY" (toFixedQ 2 s.2.1)
      |> repl "endX" (toFixedQ 2 s.2.2.1)
      |> repl "endY" (toFixedQ 2 s.2.2.2)
      |> repl "layers" ((kiPadLayer rect.layerId).getD "F.Fab")
      |> repl "strokeWidth" (toFixedQ 2 (max rect.strokeWidth 0.01)))).foldl
    (fun a b => a ++ b) ""

/-- Emit one arc record: re-derive center and extent through computeArc.
Reading the arc parameters after the A command throws a TypeError when
the path string contains no A at all (split yields a single piece and the
replace call is applied to undefined). -/
def exportFpArc (M : MathFns ℚ) (bb : BBox) (arc : FpArc) : Except JsError String :=
  let arcPath := jsReplaceFirst "A " "A" (jsReplaceFirst "M " "M"
    (jsMapChars (fun c => if c = ',' then ' ' else c) arc.path))
  let seg0 := (jsSplit1 'A' arcPath).headD ""
  let startPts := jsSplit1 ' ' (⟨seg0.data.drop 1⟩ : String)
  let startX := fpToKi (startPts.get? 0) - bb.x
  let startY := fpToKi (startPts.get? 1) - bb.y
  match (jsSplit1 'A' arcPath).get? 1 with
  | none => Except.error JsError.typeError
  | some seg1 =>
    let arcParameters := jsTrim (collapseWs seg1)
    let ps := jsSplit1 ' ' arcParameters
    let svgRx := ps.get? 0
    let svgRy := ps.get? 1
    let xAxisRotation := ps.get? 2
    let largeArc := ps.get? 3
    let sweep := ps.get? 4
    let endXRaw := ps.get? 5
    let endYRaw := ps.get? 6
    let rotated := rotateJs M (fpToKi svgRx) (fpToKi svgRy) 0
    let endX := fpToKi endXRaw - bb.x
    let endY := fpToKi endYRaw - bb.y
    let res :=
      if rotated.2 ≠ 0 then
        let arcInfo := computeArc M startX startY rotated.1 rotated.2
          (toNumber xAxisRotation) (largeArc == some "1") (sweep == some "1")
          endX endY
        (arcInfo.cx, arcInfo.cy, arcInfo.angleExtent)
      else ((0 : ℚ), (0 : ℚ), (0 : ℚ))
    Except.ok (tplArc
      |> repl "startX" (toFixedQ 2 res.1)
      |> repl "startY" (toFixedQ 2 res.2.1)
      |> repl "endX" (toFixedQ 2 endX)
      |> repl "endY" (toFixedQ 2 endY)
      |> repl "angle" (toFixedQ 2 res.2.2)
      |> repl "layers" ((kiLayers arc.layerId).getD "F.Fab")
      |> repl "strokeWidth" (toFixedQ 2 (max (fpToKiNum arc.strokeWidth) 0.01)))

/-- Emit one text item. -/
def exportFpText (bb : BBox) (text : FpText) : String :=
  let layers0 := (kiLayers text.layerId).getD "F.Fab"
  let layers := if text.type = "N" then jsReplaceFirst ".SilkS" ".Fab" layers0
    else layers0
  let mirror := if jsStartsWith "B" layers then " mirror" else ""
  tplText
    |> repl "text" text.text
    |> repl "posX" (toFixedQ 2 (text.centerX - bb.x))
    |> repl "posY" (toFixedQ 2 (text.centerY - bb.y))
    |> repl "orientation" (toFixedQ 2 (angleToKi text.rotation))
    |> repl "layers" layers
    |> repl "display" (if text.isDisplayed = false then " hide" else "")
    |> repl "fontSize" (toFixedQ 2 (max text.fontSize 1))
    |> repl "thickness" (toFixedQ 2 (max text.strokeWidth 0.01))
    |> repl "mirror" mirror

/-- exportKiCadFootprint: render the converted footprint into the module
grammar; the arc loop may raise. -/
def exportKiCadFootprint (M : MathFns ℚ) (kiFootprint : Footprint)
    (model3dPath : String) : Except JsError String := do
  let bb := kiFootprint.bbox
  let mut output := ""
  output := output ++ (tplModuleInfo
    |> repl "packageLib" "easyeda2kicad"
    |> repl "packageName" kiFootprint.info.name
    |> repl "edit" "5DC5F6A4")
  if kiFootprint.info.fpType ≠ "" then
    output := output ++ (tplFpType |> repl "componentType"
      (if kiFootprint.info.fpType = "smd" then "smd" else "through_hole"))
  let yLow := if !kiFootprint.pads.isEmpty then
      listMin (kiFootprint.pads.map (fun pad => pad.centerY - bb.y))
    else -2
  let yHigh := if !kiFootprint.pads.isEmpty then
      listMax (kiFootprint.pads.map (fun pad => pad.centerY - bb.y))
    else 2
  output := output ++ (tplReference
    |> repl "posX" "0"
    |> repl "posY" (toFixedQ 2 (yLow - 4)))
  output := output ++ (tplValue
    |> repl "packageName" kiFootprint.info.name
    |> repl "posX" "0"
    |> repl "posY" (toFixedQ 2 (yHigh + 4)))
  output := output ++ tplFabRef
  for track in kiFootprint.tracks do
    output := output ++ exportFpTrack bb track
  for rect in kiFootprint.rectangles do
    output := output ++ exportFpRect bb rect
  for pad in kiFootprint.pads do
    output := output ++ exportFpPad bb pad
  for hole in kiFootprint.holes do
    output := output ++ (tplHole
      |> repl "posX" (toFixedQ 2 (hole.centerX - bb.x))
      |> repl "posY" (toFixedQ 2 (hole.centerY - bb.y))
      |> repl "size" (toFixedQ 2 (hole.radius * 2)))
  for via in kiFootprint.vias do
    output := output ++ (tplVia
      |> repl "posX" (toFixedQ 2 (via.centerX - bb.x))
      |> repl "posY" (toFixedQ 2 (via.centerY - bb.y))
      |> repl "diameter" (toFixedQ 2 via.diameter)
      |> repl "size" (toFixedQ 2 (via.radius * 2)))
  for circ in kiFootprint.circles do
    let cx := circ.cx - bb.x
    let cy := circ.cy - bb.y
    output := output ++ (tplCircle
      |> repl "cx" (toFixedQ 2 cx)
      |> repl "cy" (toFixedQ 2 cy)
      |> repl "endX" (toFixedQ 2 (cx + circ.radius))
      |> repl "endY" (toFixedQ 2 cy)
      |> repl "layers" ((kiLayers circ.layerId).getD "F.Fab")
      |> repl "strokeWidth" (toFixedQ 2 (max circ.strokeWidth 0.01)))
  for arc in kiFootprint.arcs do
    let arcOut ← exportFpArc M bb arc
    output := output ++ arcOut
  for text in kiFootprint.texts do
    output := output ++ exportFpText bb text
  match kiFootprint.model3d with
  | some m =>
    if model3dPath ≠ "" then
      output := output ++ (tplModel3d
        |> repl "file3d" (model3dPath ++ "/" ++ m.name ++ ".wrl")
        |> repl "posX" (toFixedQ 3 m.translation.x)
        |> repl "posY" (toFixedQ 3 m.translation.y)
        |> repl "posZ" (toFixedQ 3 m.translation.z)
        |> repl "rotX" (toFixedQ 0 m.rotation.x)
        |> repl "rotY" (toFixedQ 0 m.rotation.y)
        |> repl "rotZ" (toFixedQ 0 m.rotation.z))
  | none => pure ()
  output := output ++ ")"
  return output

/-! ## Symbol exporter -/

/-- KiCad symbol library header constants and layout configuration. -/
def kiSymbolLibVersion : String := "20211014"

def kiSymbolGenerator : String := "easy EDA downloader"

def kiPinNameSize : ℚ := 1.27

def kiPinNumSize : ℚ := 1.27

def kiPropertyFontSize : ℚ := 1.27

def kiFieldOffsetStart : ℚ := 5.08

def kiFieldOffsetIncrement : ℚ := 2.54

def kiDefaultLineWidth : ℚ := 0

/-- JavaScript s || d for an always-present string operand. -/
def jsFalsyOr (d s : String) : String :=
  if s = "" then d else s

/-- String.prototype.repeat. -/
def strRepeat (s : String) (n : Nat) : String :=
  ⟨(List.replicate n s.data).flatten⟩

/-- indentLines: reindent a multi-line block line by line, leaving blank
lines untouched and collapsing an all-blank block to nothing. -/
def indentLines (text : String) (indentLevel : Nat) : String :=
  if jsTrim text = "" then ""
  else
    let indent := strRepeat "  " indentLevel
    joinSep "\n" ((jsSplit1 '\n' text).map (fun line =>
      if jsTrim line ≠ "" then indent ++ line else line))

/-- formatSymbolProperty: one property entry of the symbol header. -/
def formatSymbolProperty (key value : String) (id : Nat) (posY : ℚ)
    (rotation : ℚ) (hide : Bool := false) : String :=
  let hideFlag := if hide then "hide" else ""
  "(property\n  \"" ++ key ++ "\"\n  \"" ++ value ++ "\"\n  (id " ++
    natToStr id ++ ")\n  (at 0 " ++ toFixedQ 2 posY ++ " " ++ numToStr rotation ++
    ")\n  (effects (font (size " ++ numToStr kiPropertyFontSize ++ " " ++
    numToStr kiPropertyFontSize ++ ") ) " ++ hideFlag ++ ")\n)"

/-- exportSymbolPin: one pin block. -/
def exportSymbolPin (pin : KiPin) : String :=
  let pinName := applyPinNameStyle pin.name
  let pinType := if jsStartsWith "_" pin.type then ⟨pin.type.data.drop 1⟩ else pin.type
  "(pin " ++ pinType ++ " " ++ pin.style ++ "\n  (at " ++ toFixedQ 2 pin.posX ++
    " " ++ toFixedQ 2 pin.posY ++ " " ++ numToStr pin.orientation ++
    ")\n  (length " ++ toFixedQ 2 pin.length ++ ")\n  (name \"" ++ pinName ++
    "\" (effects (font (size " ++ numToStr kiPinNameSize ++ " " ++
    numToStr kiPinNameSize ++ "))))\n  (number \"" ++ pin.number ++
    "\" (effects (font (size " ++ numToStr kiPinNumSize ++ " " ++
    numToStr kiPinNumSize ++ "))))\n)"

/-- exportSymbolRectangle. -/
def exportSymbolRectangle (rect : KiRect) : String :=
  "(rectangle\n  (start " ++ toFixedQ 2 rect.posX0 ++ " " ++ toFixedQ 2 rect.posY0 ++
    ")\n  (end " ++ toFixedQ 2 rect.posX1 ++ " " ++ toFixedQ 2 rect.posY1 ++
    ")\n  (stroke (width " ++ numToStr kiDefaultLineWidth ++
    ") (type default) (color 0 0 0 0))\n  (fill (type background))\n)"

/-- exportSymbolCircle. -/
def exportSymbolCircle (circle : KiCircle) : String :=
  "(circle\n  (center " ++ toFixedQ 2 circle.posX ++ " " ++ toFixedQ 2 circle.posY ++
    ")\n  (radius " ++ toFixedQ 2 circle.radius ++ ")\n  (stroke (width " ++
    numToStr kiDefaultLineWidth ++ ") (type default) (color 0 0 0 0))\n  (fill (type " ++
    (if circle.background then "background" else "none") ++ "))\n)"

/-- exportSymbolArc. -/
def exportSymbolArc (arc : KiArc) : String :=
  "(arc\n  (start " ++ toFixedQ 2 arc.startX ++ " " ++ toFixedQ 2 arc.startY ++
    ")\n  (mid " ++ toFixedQ 2 arc.middleX ++ " " ++ toFixedQ 2 arc.middleY ++
    ")\n  (end " ++ toFixedQ 2 arc.endX ++ " " ++ toFixedQ 2 arc.endY ++
    ")\n  (stroke (width " ++ numToStr kiDefaultLineWidth ++
    ") (type default) (color 0 0 0 0))\n  (fill (type " ++
    (if arc.fill then "background" else "none") ++ "))\n)"

/-- exportSymbolPolygon: reading toFixed of an undefined coordinate
throws. -/
def exportSymbolPolygon (poly : KiPoly) : Except JsError String := do
  let mut pointLines : List String := []
  for p in poly.points do
    match p.1, p.2 with
    | some x, some y =>
      pointLines := pointLines ++ ["    (xy " ++ toFixedQ 2 x ++ " " ++ toFixedQ 2 y ++ ")"]
    | _, _ => throw JsError.typeError
  return "(polyline\n  (pts\n" ++ joinSep "\n" pointLines ++
    "\n  )\n  (stroke (width " ++ numToStr kiDefaultLineWidth ++
    ") (type default) (color 0 0 0 0))\n  (fill (type " ++
    (if poly.isClosed then "background" else "none") ++ "))\n)"

/-- exportKiCadSymbolLibrary: property layout, graphics and pins wrapped
in the library container. -/
def exportKiCadSymbolLibrary (kiSymbol : KiSymbol) : Except JsError String := do
  let pins := kiSymbol.pins
  let yLow := if !pins.isEmpty then listMin (pins.map (·.posY)) else 0
  let yHigh := if !pins.isEmpty then listMax (pins.map (·.posY)) else 0
  let offsetY0 := kiFieldOffsetStart
  let props0 : List String :=
    [formatSymbolProperty "Reference" (jsFalsyOr "U" kiSymbol.info.prefixStr)
      0 (yHigh + offsetY0) 0,
     formatSymbolProperty "Value" kiSymbol.info.name 1 (yLow - offsetY0) 0]
  let (props1, offsetY1) :=
    if kiSymbol.info.package ≠ "" then
      (props0 ++ [formatSymbolProperty "Footprint" kiSymbol.info.package 2
        (yLow - (offsetY0 + kiFieldOffsetIncrement)) 0 true],
       offsetY0 + kiFieldOffsetIncrement)
    else (props0, offsetY0)
  let (props2, offsetY2) :=
    if kiSymbol.info.datasheet ≠ "" then
      (props1 ++ [formatSymbolProperty "Datasheet" kiSymbol.info.datasheet 3
        (yLow - (offsetY1 + kiFieldOffsetIncrement)) 0 true],
       offsetY1 + kiFieldOffsetIncrement)
    else (props1, offsetY1)
  let (props3, offsetY3) :=
    if kiSymbol.info.manufacturer ≠ "" then
      (props2 ++ [formatSymbolProperty "Manufacturer" kiSymbol.info.manufacturer 4
        (yLow - (offsetY2 + kiFieldOffsetIncrement)) 0 true],
       offsetY2 + kiFieldOffsetIncrement)
    else (props2, offsetY2)
  let (props4, offsetY4) :=
    if kiSymbol.info.lcscId ≠ "" then
      (props3 ++ [formatSymbolProperty "LCSC Part" kiSymbol.info.lcscId 5
        (yLow - (offsetY3 + kiFieldOffsetIncrement)) 0 true],
       offsetY3 + kiFieldOffsetIncrement)
    else (props3, offsetY3)
  let (properties, _) :=
    if kiSymbol.info.jlcId ≠ "" then
      (props4 ++ [formatSymbolProperty "JLC Part" kiSymbol.info.jlcId 6
        (yLow - (offsetY4 + kiFieldOffsetIncrement)) 0 true],
       offsetY4 + kiFieldOffsetIncrement)
    else (props4, offsetY4)
  let symbolId := sanitizeFields (jsFalsyOr "symbol" kiSymbol.info.name)
  let polyItems ← kiSymbol.polygons.mapM exportSymbolPolygon
  let graphicItems := joinSep "\n"
    (kiSymbol.rectangles.map exportSymbolRectangle ++
     kiSymbol.circles.map exportSymbolCircle ++
     kiSymbol.arcs.map exportSymbolArc ++
     polyItems)
  let pinItems := joinSep "\n" (kiSymbol.pins.map exportSymbolPin)
  let symbolBlock := jsTrim ("\n(symbol \"" ++ symbolId ++
    "\"\n  (in_bom yes)\n  (on_board yes)\n" ++
    joinSep "\n" (properties.map (fun line => "  " ++ jsTrim line)) ++
    "\n  (symbol \"" ++ symbolId ++ "_0_1\"\n" ++
    indentLines graphicItems 4 ++ "\n" ++ indentLines pinItems 4 ++ "\n  )\n)")
  return "(kicad_symbol_lib\n  (version " ++ kiSymbolLibVersion ++
    ")\n  (generator \"" ++ kiSymbolGenerator ++ "\")\n" ++
    indentLines symbolBlock 1 ++ "\n)\n"

/-! ## Mesh converter (convertObjToWrl) -/

/-- Split on newlines, also eating a carriage return directly before a
newline (the split on the optional-return-newline regexp). -/
def linesConsHead (c : Char) : List (List Char) → List (List Char)
  | [] => [[c]]
  | h :: t => (c :: h) :: t

def splitLinesGo : List Char → List (List Char)
  | [] => [[]]
  | '\r' :: '\n' :: rest => [] :: splitLinesGo rest
  | c :: rest =>
    if c = '\n' then [] :: splitLinesGo rest
    else linesConsHead c (splitLinesGo rest)

def splitLines (s : String) : List String :=
  (splitLinesGo s.data).map (fun l => ⟨l⟩)

/-- Index of the first occurrence of a pattern. -/
def findIdxGo (pat : List Char) : List Char → Nat → Option Nat
  | [], n => if pat.isPrefixOf [] then some n else none
  | c :: rest, n =>
    if pat.isPrefixOf (c :: rest) then some n else findIdxGo pat rest (n + 1)

/-- Lazy material-block matches: each match runs from a newmtl marker to
the first endmtl marker after it; scanning resumes after the match. -/
def mtlBlocksGo : Nat → List Char → List (List Char)
  | 0, _ => []
  | _ + 1, [] => []
  | fuel + 1, c :: rest =>
    if ("newmtl").data.isPrefixOf (c :: rest) then
      match findIdxGo ("endmtl").data ((c :: rest).drop 6) 0 with
      | some k =>
        (c :: rest).take (6 + k + 6) ::
          mtlBlocksGo fuel ((c :: rest).drop (6 + k + 6))
      | none => []
    else mtlBlocksGo fuel rest

def mtlBlocks (s : String) : List String :=
  (mtlBlocksGo (s.data.length + 1) s.data).map (fun l => ⟨l⟩)

/-- Channel triples of one material. -/
structure MtlChannels where
  ambient : Option (List String)
  diffuse : Option (List String)
  specular : Option (List String)
  transparency : Option (List String)
  deriving DecidableEq

/-- Object-style string-keyed map update (assignment overwrites). -/
def objSet (l : List (String × MtlChannels)) (k : String) (v : MtlChannels) :
    List (String × MtlChannels) :=
  if (l.find? (fun p => p.1 == k)).isSome then
    l.map (fun p => if p.1 == k then (k, v) else p)
  else l ++ [(k, v)]

def objGet (l : List (String × MtlChannels)) (k : String) : Option MtlChannels :=
  (l.find? (fun p => p.1 == k)).map (·.2)

/-- Parse the material blocks of the OBJ data. -/
def parseMtl (objData : String) : List (String × MtlChannels) :=
  (mtlBlocks objData).foldl (fun mats block =>
    let st := (splitLines block).foldl (fun (st : String × MtlChannels) line =>
      if jsStartsWith "newmtl" line then
        (((jsSplit1 ' ' line).get? 1).getD "undefined", st.2)
      else if jsStartsWith "Ka" line then
        (st.1, { st.2 with ambient := some ((jsSplit1 ' ' line).drop 1) })
      else if jsStartsWith "Kd" line then
        (st.1, { st.2 with diffuse := some ((jsSplit1 ' ' line).drop 1) })
      else if jsStartsWith "Ks" line then
        (st.1, { st.2 with specular := some ((jsSplit1 ' ' line).drop 1) })
      else if jsStartsWith "d" line then
        (st.1, { st.2 with transparency := some ((jsSplit1 ' ' line).drop 1) })
      else st) ("", ⟨none, none, none, none⟩)
    objSet mats st.1 st.2) []

/-- Parse and convert the global vertex list: every vertex line, its
coordinates divided by 2.54 and rendered with four decimals. -/
def parseObjVertices (objData : String) : List String :=
  ((splitLines objData).filter (fun l =>
    match l.data with
    | 'v' :: c :: _ => jsWs c
    | _ => false)).map (fun line =>
    joinSep " " ((jsTrimSplitWs ⟨(line.data.drop 1).dropWhile jsWs⟩).map (fun v =>
      match jsNumber v with
      | some q => toFixedQ 4 (q / 2.54)
      | none => "NaN")))

/-- parseInt(s, 10): leading whitespace skipped, optional sign, maximal
digit run; NaN when no digit is found. -/
def jsParseInt (s : String) : Option Int :=
  let t := s.data.dropWhile jsWs
  let sb : Int × List Char :=
    match t with
    | '-' :: r => (-1, r)
    | '+' :: r => (1, r)
    | _ => (1, t)
  let digits := sb.2.takeWhile Char.isDigit
  if digits.isEmpty then none
  else
    match parseDigitsGo digits with
    | some (v, _) => some (sb.1 * v)
    | none => none

/-- Face directives of one material group: each f line parsed into the
first index of every slash-separated vertex reference. -/
def shapeFaces (lines : List String) : List (List (Option Int)) :=
  (lines.drop 1).filterMap (fun line =>
    if jsStartsWith "f " line then
      some ((jsSplitWsRaw (jsReplaceAll "//" "/"
          ⟨(line.data.drop 1).dropWhile jsWs⟩)).map (fun part =>
        jsParseInt ((jsSplit1 '/' part).headD "")))
    else none)

/-- De-duplication state of one shape: the insertion-ordered link map from
source vertex index to local index, the running counter, and the collected
point entries (an out-of-range reference collects undefined). -/
structure DedupState where
  link : List (Option Int × Nat)
  counter : Nat
  points : List (Option String)
  deriving DecidableEq

def linkFind (l : List (Option Int × Nat)) (k : Option Int) : Option Nat :=
  (l.find? (fun p => p.1 == k)).map (·.2)

/-- The vertex entry a face reference points at (JavaScript array indexing
with an off-range or NaN index yields undefined). -/
def vertexAt (vertices : List String) (idx : Option Int) : Option String :=
  match idx with
  | none => none
  | some i => if 1 ≤ i then vertices.get? (i - 1).toNat else none

/-- Process one face reference: reuse an assigned local index, or assign
the next counter value and collect the referenced vertex. -/
def dedupStep (vertices : List String) (st : DedupState) (idx : Option Int) :
    DedupState × Int :=
  match linkFind st.link idx with
  | some v => (st, (v : Int))
  | none =>
    ({ link := st.link ++ [(idx, st.counter)]
       counter := st.counter + 1
       points := st.points ++ [vertexAt vertices idx] }, (st.counter : Int))

def dedupFaceGo (vertices : List String) (st : DedupState) (acc : List Int) :
    List (Option Int) → DedupState × List Int
  | [] => (st, acc)
  | idx :: rest =>
    let r := dedupStep vertices st idx
    dedupFaceGo vertices r.1 (acc ++ [r.2]) rest

def processFacesGo (vertices : List String) (st : DedupState)
    (out : List (List Int)) : List (List (Option Int)) → DedupState × List (List Int)
  | [] => (st, out)
  | face :: rest =>
    let r := dedupFaceGo vertices st [] face
    processFacesGo vertices r.1 (out ++ [r.2 ++ [-1]]) rest

/-- Full face walk of one shape from the empty state. -/
def processFaces (vertices : List String) (faces : List (List (Option Int))) :
    DedupState × List (List Int) :=
  processFacesGo vertices ⟨[], 0, []⟩ [] faces

/-- The point-list compatibility quirk: when at least one point was
collected, a copy of the last collected point is inserted before it. -/
def dupLast {α : Type} : List α → List α
  | [] => []
  | l@(_ :: _) =>
    match l.getLast? with
    | none => l
    | some x => l ++ [x]

/-- Emit one scene node from one material group. -/
def convertObjShape (materials : List (String × MtlChannels))
    (vertices : List String) (shape : String) : String :=
  let lines := (splitLines shape).filter (fun l => l ≠ "")
  if lines.isEmpty then ""
  else
    let material := (objGet materials (stripWs (lines.headD ""))).getD
      ⟨none, none, none, none⟩
    let faces := shapeFaces lines
    let r := processFaces vertices faces
    let coordIndex := r.2.map (fun fi => joinSep " " (fi.map intToStr) ++ ",")
    let points := dupLast r.1.points
    "\nShape\x7b\n    appearance Appearance \x7b\n        material  Material \x7b\n" ++
    "            diffuseColor " ++ joinSep " " (material.diffuse.getD []) ++ "\n" ++
    "            specularColor " ++ joinSep " " (material.specular.getD []) ++ "\n" ++
    "            ambientIntensity 0.2\n            transparency 0\n            shininess 0.5\n" ++
    "        \x7d\n    \x7d\n    geometry IndexedFaceSet \x7b\n" ++
    "        ccw TRUE\n        solid FALSE\n" ++
    "        coord DEF co Coordinate \x7b\n            point [\n                " ++
    joinSep ", " (points.map jsOrEmpty) ++
    "\n            ]\n        \x7d\n        coordIndex [\n            " ++
    joinSep "" coordIndex ++
    "\n        ]\n    \x7d\n\x7d"

/-- convertObjToWrl: material table, converted vertex list, then one scene
node per usemtl group. -/
def convertObjToWrl (objData : String) : String :=
  let materials := parseMtl objData
  let vertices := parseObjVertices objData
  let shapes := (jsSplitStr "usemtl" objData).drop 1
  shapes.foldl (fun rawWrl shape => rawWrl ++ convertObjShape materials vertices shape)
    "#VRML V2.0 utf8\n# 3D model generated by easy EDA downloader\n"

/-! ## Public API -/

structure ConvOptions where
  symbol : Bool
  footprint : Bool
  deriving DecidableEq

structure NamedOut where
  name : String
  content : String
  deriving DecidableEq

structure ConvResult where
  symbol : Option NamedOut
  footprint : Option NamedOut
  deriving DecidableEq

/-- convertEasyedaCadToKicad: parse, convert and export the requested
outputs. -/
def convertEasyedaCadToKicad (M : MathFns ℚ) (J : JsonAttrs) (cadData : CadData)
    (options : ConvOptions) : Except JsError ConvResult := do
  let mut result : ConvResult := ⟨none, none⟩
  if options.symbol then
    let eeSymbol := parseEasyedaSymbol cadData
    let kiSymbol := convertSymbolToKiCad M eeSymbol
    let content ← exportKiCadSymbolLibrary kiSymbol
    let nm := sanitizeFields (jsFalsyOr "symbol" eeSymbol.info.name)
    result := { result with symbol := some { name := nm, content := content } }
  if options.footprint then
    let eeFootprint := parseEasyedaFootprint J cadData
    let kiFootprint := convertFootprintToKiCad eeFootprint
    let content ← exportKiCadFootprint M kiFootprint "$\x7bKIPRJMOD\x7d"
    let nm := jsFalsyOr "footprint" eeFootprint.info.name
    result := { result with footprint := some { name := nm, content := content } }
  return result

/-- convertObjToWrlString: public wrapper of the mesh converter. -/
def convertObjToWrlString (objData : String) : String :=
  convertObjToWrl objData

/-! ## Concrete platform instances and inputs used by witnesses -/

/-- A concrete rational model of the Math primitives that satisfies every
fact assumed by the theorems below at the inputs they are instantiated
with. -/
def qMathW : MathFns ℚ :=
  { pi := 180, sqrt := id, acos := fun _ => 180,
    cos := fun _ => 1, sin := fun _ => 0, atan2 := fun _ _ => 0 }

/-- JSON primitive that rejects every payload. -/
def noJson : JsonAttrs := fun _ => none

/-! ## Shared lemmas -/

theorem jsSplitChar_ne_nil (sep : Char) (l : List Char) :
    jsSplitChar sep l ≠ [] := by
  cases l with
  | nil => simp [jsSplitChar]
  | cons c rest =>
    simp only [jsSplitChar]
    split <;> split <;> simp

/-- Every character of every piece of a split comes from the input. -/
theorem jsSplitChar_mem (sep : Char) (l : List Char) :
    ∀ part ∈ jsSplitChar sep l, ∀ c ∈ part, c ∈ l := by
  induction l with
  | nil =>
    intro part hp c hc
    simp [jsSplitChar] at hp
    simp [hp] at hc
  | cons a rest ih =>
    intro part hp c hc
    simp only [jsSplitChar] at hp
    rcases hrec : jsSplitChar sep rest with _ | ⟨h, t⟩
    · exact absurd hrec (jsSplitChar_ne_nil sep rest)
    · rw [hrec] at hp
      by_cases hsep : a = sep
      · simp [hsep] at hp
        rcases hp with hp | hp | hp
        · simp [hp] at hc
        · exact List.mem_cons_of_mem _
            (ih h (by rw [hrec]; exact List.mem_cons_self _ _) c (hp ▸ hc))
        · exact List.mem_cons_of_mem _
            (ih part (by rw [hrec]; exact List.mem_cons_of_mem _ hp) c hc)
      · simp [hsep] at hp
        rcases hp with hp | hp
        · subst hp
          rcases List.mem_cons.mp hc with hc | hc
          · exact List.mem_cons.mpr (Or.inl hc)
          · exact List.mem_cons_of_mem _
              (ih h (by rw [hrec]; exact List.mem_cons_self _ _) c hc)
        · exact List.mem_cons_of_mem _
            (ih part (by rw [hrec]; exact List.mem_cons_of_mem _ hp) c hc)

variable {F : Type} [LinearOrderedField F] [FloorRing F]

/-- The JavaScript remainder of a nonnegative dividend by 360 equals the
floor-based remainder. -/
theorem jsFmod_nonneg_eq (x : F) (hx : 0 ≤ x) :
    jsFmod x 360 = x - 360 * ⌊x / 360⌋ := by
  have hq : (0 : F) ≤ x / 360 := div_nonneg hx (by norm_num)
  simp [jsFmod, truncDivF, hq]

/-- That remainder lies in the interval from 0 inclusive to 360
exclusive. -/
theorem jsFmod_nonneg_bounds (x : F) (hx : 0 ≤ x) :
    0 ≤ jsFmod x 360 ∧ jsFmod x 360 < 360 := by
  rw [jsFmod_nonneg_eq x hx]
  have hfr : x - 360 * ⌊x / 360⌋ = 360 * Int.fract (x / 360) := by
    rw [Int.fract]
    have h360 : (360 : F) * (x / 360) = x := by field_simp
    rw [mul_sub, h360]
  rw [hfr]
  have h0 := Int.fract_nonneg (x / 360)
  have h1 := Int.fract_lt_one (x / 360)
  constructor
  · positivity
  · nlinarith

/-- Small-range remainders are untouched. -/
theorem jsFmod_small (x : F) (h0 : 0 ≤ x) (h1 : x < 360) : jsFmod x 360 = x := by
  rw [jsFmod_nonneg_eq x h0]
  have : ⌊x / 360⌋ = 0 := by
    rw [Int.floor_eq_zero_iff]
    constructor
    · positivity
    · rw [div_lt_one (by norm_num : (0:F) < 360)]; linarith
  simp [this]

/-- The sentinel 719 becomes -359 under the extent adjustment, for either
sweep flag. -/
theorem arcExtentAdjust_719 (sweepFlag : Bool) :
    arcExtentAdjust (F := F) sweepFlag 719 = -359 := by
  cases sweepFlag with
  | false =>
    simp only [arcExtentAdjust]
    norm_num
    exact jsFmod_small _ (by norm_num) (by norm_num)
  | true =>
    simp only [arcExtentAdjust]
    norm_num
    rw [jsFmod_nonneg_eq _ (by norm_num : (0:F) ≤ 719)]
    have hf : ⌊(719 : F) / 360⌋ = 1 := by
      rw [Int.floor_eq_iff]
      constructor <;> norm_num
    rw [hf]
    norm_num

/-! ## Claim C3 -/

/-- Claim C3 counterexample: at the degenerate input with coinciding start
and end point (both direction vectors are zero), computeArc does not
return 719 in the angleExtent field; the sentinel is assigned internally
but the post-processing turns it into -359. -/
theorem c3_sentinel_counterexample :
    ((computeArcInterm qMathW 0 0 5 5 0 false false 0 0).ux = 0 ∧
     (computeArcInterm qMathW 0 0 5 5 0 false false 0 0).uy = 0) ∧
    (computeArc qMathW 0 0 5 5 0 false false 0 0).angleExtent = -359 ∧
    ((-359 : ℚ) ≠ 719) := by
  with_unfolding_all decide

/-- Claim C3 as amended: for every degenerate arc input where one of the
direction vectors has zero length (and the square root primitive maps 0
to 0, as the real one does), the returned angleExtent is -359: the
internal sentinel 719 after sweep adjustment and range reduction. -/
theorem c3_sentinel_amended (M : MathFns F)
    (startX startY radiusX radiusY angle : F) (largeArcFlag sweepFlag : Bool)
    (endX endY : F) (hs0 : M.sqrt 0 = 0)
    (hdeg :
      ((computeArcInterm M startX startY radiusX radiusY angle largeArcFlag
          sweepFlag endX endY).ux = 0 ∧
       (computeArcInterm M startX startY radiusX radiusY angle largeArcFlag
          sweepFlag endX endY).uy = 0) ∨
      ((computeArcInterm M startX startY radiusX radiusY angle largeArcFlag
          sweepFlag endX endY).vx = 0 ∧
       (computeArcInterm M startX startY radiusX radiusY angle largeArcFlag
          sweepFlag endX endY).vy = 0)) :
    (computeArc M startX startY radiusX radiusY angle largeArcFlag sweepFlag
      endX endY).angleExtent = -359 := by
  simp only [computeArc]
  have hprod :
      ((computeArcInterm M startX startY radiusX radiusY angle largeArcFlag
          sweepFlag endX endY).ux *
        (computeArcInterm M startX startY radiusX radiusY angle largeArcFlag
          sweepFlag endX endY).ux +
       (computeArcInterm M startX startY radiusX radiusY angle largeArcFlag
          sweepFlag endX endY).uy *
        (computeArcInterm M startX startY radiusX radiusY angle largeArcFlag
          sweepFlag endX endY).uy) *
      ((computeArcInterm M startX startY radiusX radiusY angle largeArcFlag
          sweepFlag endX endY).vx *
        (computeArcInterm M startX startY radiusX radiusY angle largeArcFlag
          sweepFlag endX endY).vx +
       (computeArcInterm M startX startY radiusX radiusY angle largeArcFlag
          sweepFlag endX endY).vy *
        (computeArcInterm M startX startY radiusX radiusY angle largeArcFlag
          sweepFlag endX endY).vy) = 0 := by
    rcases hdeg with ⟨h1, h2⟩ | ⟨h1, h2⟩ <;> rw [h1, h2] <;> ring
  rw [hprod, hs0]
  simp [arcExtentAdjust_719]

/-- Witness for the amended claim C3 at a concrete degenerate input. -/
theorem c3_sentinel_amended_witness :
    (computeArc qMathW 3 4 5 5 0 true false 3 4).angleExtent = -359 :=
  c3_sentinel_amended qMathW 3 4 5 5 0 true false 3 4 rfl
    (by with_unfolding_all decide)

/-! ## Claim C4 -/

/-- Claim C4 counterexample: with the sweep flag set and a raw extent of
180 degrees, the sweep adjustment leaves 180 unchanged and a
sign-preserving reduction to the stated range would also return 180; the
code returns -180, inverting the sign. -/
theorem c4_reduction_counterexample :
    arcExtentAdjust true (180 : ℚ) = -180 ∧ ((-180 : ℚ) ≠ 180) := by
  with_unfolding_all decide

/-- Claim C4 as amended: the sweep adjustment is exactly as stated
(subtract 360 when the sweep flag is unset and the extent positive, add
360 when set and negative), but the final reduction returns the absolute
value modulo 360 with the sign inverted: the result lies strictly between
-360 and 360, is nonpositive whenever the adjusted extent is nonnegative,
and nonnegative whenever the adjusted extent is negative. -/
theorem c4_reduction_amended (sweepFlag : Bool) (e e1 : F)
    (he1 : e1 = if !sweepFlag ∧ e > 0 then e - 360
                else if sweepFlag ∧ e < 0 then e + 360 else e) :
    arcExtentAdjust sweepFlag e =
      (|e1| - 360 * ⌊|e1| / 360⌋) * (if e1 < 0 then 1 else -1) ∧
    (-360 < arcExtentAdjust sweepFlag e ∧ arcExtentAdjust sweepFlag e < 360) ∧
    (0 ≤ e1 → arcExtentAdjust sweepFlag e ≤ 0) ∧
    (e1 < 0 → 0 ≤ arcExtentAdjust sweepFlag e) := by
  have habs : (0 : F) ≤ |e1| := abs_nonneg e1
  have hval : arcExtentAdjust sweepFlag e =
      jsFmod |e1| 360 * (if e1 < 0 then 1 else -1) := by
    simp only [arcExtentAdjust, he1]
  have hb := jsFmod_nonneg_bounds |e1| habs
  refine ⟨?_, ?_, ?_, ?_⟩
  · rw [hval, jsFmod_nonneg_eq |e1| habs]
  · rw [hval]
    by_cases hneg : e1 < 0
    · simp only [hneg, if_pos]
      constructor <;> nlinarith [hb.1, hb.2]
    · simp only [hneg, if_neg, if_false]
      constructor <;> nlinarith [hb.1, hb.2]
  · intro hpos
    rw [hval]
    have : ¬ e1 < 0 := not_lt.mpr hpos
    simp only [this, if_false]
    nlinarith [hb.1]
  · intro hneg
    rw [hval]
    simp only [hneg, if_pos]
    nlinarith [hb.1]

/-- Witness for the amended claim C4 at sweep set and extent 180. -/
theorem c4_reduction_amended_witness :
    arcExtentAdjust true (180 : ℚ) =
      (|(180 : ℚ)| - 360 * ⌊|(180 : ℚ)| / 360⌋) * (-1) ∧
    arcExtentAdjust true (180 : ℚ) ≤ 0 := by
  have h := c4_reduction_amended true (180 : ℚ) 180 (by norm_num)
  refine ⟨?_, h.2.2.1 (by norm_num)⟩
  have h1 := h.1
  simpa using h1

/-! ## Claim C7 -/

/-- Claim C7: drill selection.  A pad with hole radius 0.3 and hole
length 0 gets a round drill of diameter 0.6; with hole length 1.0 it gets
an oval drill whose long axis (the 1.00 dimension) follows the pad axis
with the larger clearance margin (the height margin when the height
margin is at least the width margin, else the width margin); a
nonpositive hole radius yields no drill clause. -/
theorem c7_drill_selection (padHeight padWidth r len : ℚ) :
    drillToKi 0.3 0 padHeight padWidth = "(drill 0.60)" ∧
    (padWidth ≤ padHeight →
      drillToKi 0.3 1 padHeight padWidth = "(drill oval 0.60 1.00)") ∧
    (padHeight < padWidth →
      drillToKi 0.3 1 padHeight padWidth = "(drill oval 1.00 0.60)") ∧
    (r ≤ 0 → drillToKi r len padHeight padWidth = "") := by
  refine ⟨?_, ?_, ?_, ?_⟩
  · unfold drillToKi
    rw [if_neg (by norm_num), if_pos (by norm_num)]
    with_unfolding_all decide
  · intro hle
    unfold drillToKi
    rw [if_pos (by norm_num : (0.3 : ℚ) > 0 ∧ (1 : ℚ) ≠ 0)]
    rw [max_eq_right (by norm_num : (0.3 : ℚ) * 2 ≤ 1)]
    rw [if_pos (max_eq_left (by linarith : padWidth - 1 ≤ padHeight - 1))]
    with_unfolding_all decide
  · intro hlt
    unfold drillToKi
    rw [if_pos (by norm_num : (0.3 : ℚ) > 0 ∧ (1 : ℚ) ≠ 0)]
    rw [max_eq_right (by norm_num : (0.3 : ℚ) * 2 ≤ 1)]
    rw [if_neg (by
      rw [max_eq_right (by linarith : padHeight - 1 ≤ padWidth - 1)]
      intro h
      linarith)]
    with_unfolding_all decide
  · intro hr
    unfold drillToKi
    rw [if_neg (by intro h; exact absurd h.1 (not_lt.mpr hr)),
      if_neg (not_lt.mpr hr)]

/-- Witness for claim C7 at concrete pad sizes. -/
theorem c7_drill_selection_witness :
    drillToKi 0.3 0 2 1 = "(drill 0.60)" ∧
    drillToKi 0.3 1 2 1 = "(drill oval 0.60 1.00)" ∧
    drillToKi 0.3 1 1 2 = "(drill oval 1.00 0.60)" ∧
    drillToKi (-1) 5 2 1 = "" := by
  have h1 := c7_drill_selection 2 1 (-1) 5
  have h2 := c7_drill_selection 1 2 (-1) 5
  exact ⟨h1.1, h1.2.1 (by norm_num), h2.2.2.1 (by norm_num),
    h1.2.2.2 (by norm_num)⟩

/-! ## Claim C8 -/

/-- Claim C8: for start point (0,0), end point (10,0), radii (5,5),
rotation 0, large-arc unset, sweep set, computeArc solves the center
(5,0) and the signed extent -180 degrees, for every model of the Math
primitives that satisfies the listed facts about the real functions. -/
theorem c8_arc_semicircle (M : MathFns F)
    (hcos : M.cos 0 = 1) (hsin : M.sin 0 = 0)
    (hs0 : M.sqrt 0 = 0) (hs1 : M.sqrt 1 = 1)
    (hacos : M.acos (-1) = M.pi) (hpi : M.pi ≠ 0) :
    computeArc M 0 0 5 5 0 false true 10 0 = ⟨5, 0, -180⟩ := by
  have hrad : jsFmod (0 : F) 360.0 = 0 := by
    norm_num [jsFmod, truncDivF]
  have hinterm : computeArcInterm M 0 0 5 5 0 false true 10 0 =
      ⟨5, 0, -1, 0, 1, 0⟩ := by
    simp only [computeArcInterm, toRadiansF, hrad]
    norm_num [hcos, hsin, hs0]
  simp only [computeArc, hinterm]
  norm_num [hs1, hacos, toDegreesF]
  rw [div_self hpi]
  norm_num
  simp only [arcExtentAdjust]
  norm_num
  exact jsFmod_small (180 : F) (by norm_num) (by norm_num)

/-- Witness for claim C8: the concrete rational model satisfies every
assumed fact. -/
theorem c8_arc_semicircle_witness :
    computeArc qMathW 0 0 5 5 0 false true 10 0 = ⟨5, 0, -180⟩ :=
  c8_arc_semicircle qMathW rfl rfl rfl rfl rfl (by with_unfolding_all decide)

/-! ## Claim C2 -/

/-- A pad with declared shape RECT and a non-empty polygon-outline points
field. -/
def padRectCx : FpPad :=
  { shape := "RECT", centerX := 10, centerY := 10, width := 1, height := 2,
    layerId := 1, net := "", number := "1", holeRadius := 0,
    points := "10 10 20 10 20 20", rotation := 0, id := "gge1",
    holeLength := 0, holePoint := "", isPlated := false, isLocked := false }

/-- The same pad with declared shape POLYGON. -/
def padPolyW : FpPad := { padRectCx with shape := "POLYGON" }

/-- Claim C2 counterexample: a pad with a non-empty polygon-outline points
field but declared shape RECT is emitted with shape rect, its own size
and no outline primitive, not as a custom pad. -/
theorem c2_custom_pad_counterexample :
    padRectCx.points ≠ "" ∧
    (padRenderParams ⟨0, 0⟩ padRectCx).shape = "rect" ∧
    (padRenderParams ⟨0, 0⟩ padRectCx).width = 1 ∧
    (padRenderParams ⟨0, 0⟩ padRectCx).polygon = "" ∧
    ("rect" : String) ≠ "custom" ∧ ((1 : ℚ) ≠ 0.005) := by
  with_unfolding_all decide

/-- Claim C2 as amended: only a pad whose declared shape maps to custom
(declared POLYGON, or unrecognized and falling back) is forced to shape
custom with both size dimensions 0.005, orientation zero, and the outline
re-expressed relative to the pad center; a declared RECT or ELLIPSE pad
keeps its mapped primitive shape even when the outline field is
non-empty. -/
theorem c2_custom_pad_amended (bb : BBox) (pad : FpPad)
    (h : kiPadShape pad.shape = none ∨ kiPadShape pad.shape = some "custom") :
    (padRenderParams bb pad).shape = "custom" ∧
    (padRenderParams bb pad).width = 0.005 ∧
    (padRenderParams bb pad).height = 0.005 ∧
    (padRenderParams bb pad).orientation = 0 ∧
    (padRenderParams bb pad).polygon =
      "\n\t\t(primitives \n\t\t\t(gr_poly \n\t\t\t\t(pts " ++
        joinSep " " (padPolyPathGo bb.x bb.y pad.centerX pad.centerY
          ((jsSplit1 ' ' pad.points).map (fun s => fpToKi (some s)))) ++
        "\n\t\t\t\t) \n\t\t\t\t(width 0.1) \n\t\t\t)\n\t\t)\n\t" := by
  have hshape : (kiPadShape pad.shape).getD "custom" = "custom" := by
    rcases h with h | h <;> rw [h] <;> rfl
  have hlen : ((jsSplit1 ' ' pad.points).map (fun s => fpToKi (some s))).length ≠ 0 := by
    simp only [jsSplit1, List.length_map, ne_eq, List.length_eq_zero]
    exact jsSplitChar_ne_nil ' ' pad.points.data
  simp only [padRenderParams, hshape, if_true]
  rw [if_pos hlen]
  exact ⟨rfl, rfl, rfl, rfl, rfl⟩

/-- Witness for the amended claim C2 at a concrete POLYGON pad. -/
theorem c2_custom_pad_amended_witness :
    (padRenderParams ⟨0, 0⟩ padPolyW).shape = "custom" ∧
    (padRenderParams ⟨0, 0⟩ padPolyW).width = 0.005 ∧
    (padRenderParams ⟨0, 0⟩ padPolyW).orientation = 0 := by
  have h := c2_custom_pad_amended ⟨0, 0⟩ padPolyW
    (Or.inr (by with_unfolding_all decide))
  exact ⟨h.1, h.2.1, h.2.2.2.1⟩

/-! ## Claim C5 -/

/-- convertToMm is multiplication by 0.254. -/
theorem convertToMm_eq (x : ℚ) : convertToMm x = 0.254 * x := by
  unfold convertToMm
  ring_nf

/-- A surface-mount footprint with a 3D model whose rotation X axis is
100 degrees. -/
def fp5base : Footprint :=
  { info := { name := "X", fpType := "smd", model3dName := "m" }
    bbox := ⟨0, 0⟩
    model3d := some
      { name := "m", uuid := "u", translation := ⟨0, 0, 4⟩,
        rotation := ⟨100, 0, 270⟩ }
    pads := [], tracks := [], holes := [], vias := [], circles := [],
    arcs := [], rectangles := [], texts := [] }

set_option maxRecDepth 4000 in
/-- Claim C5 counterexample: the claim maps rotation axis 100 to
(360 - 100) mod 360 = 260, but convertFootprintToKiCad first converts the
rotation value through the footprint millimeter scale, producing
360 - 25.4 = 334.6. -/
theorem c5_model3d_counterexample :
    (convertFootprintToKiCad fp5base).model3d.map (fun m => m.rotation.x) =
      some (1673 / 5) ∧
    jsFmod (360 - 100 : ℚ) 360 = 260 ∧
    ((1673 / 5 : ℚ) ≠ 260) := by
  with_unfolding_all decide

/-- Claim C5 as amended: each rotation axis value r of the model is first
passed through the footprint unit conversion (multiplication by 0.254)
and then mapped through (360 - converted) mod 360; the converted
translation Z is negated only for surface-mount footprints and set to 0
for all others. -/
theorem c5_model3d_amended (fp : Footprint) (m : Model3D)
    (h : fp.model3d = some m) :
    ∃ m2, (convertFootprintToKiCad fp).model3d = some m2 ∧
      m2.rotation.x = jsFmod (360 - 0.254 * m.rotation.x) 360 ∧
      m2.rotation.y = jsFmod (360 - 0.254 * m.rotation.y) 360 ∧
      m2.rotation.z = jsFmod (360 - 0.254 * m.rotation.z) 360 ∧
      (fp.info.fpType = "smd" → m2.translation.z = -(0.254 * m.translation.z)) ∧
      (fp.info.fpType ≠ "smd" → m2.translation.z = 0) := by
  refine ⟨{ m with
      translation :=
        { x := convertToMm m.translation.x - convertToMm fp.bbox.x
          y := -(convertToMm m.translation.y - convertToMm fp.bbox.y)
          z := if fp.info.fpType = "smd" then -convertToMm m.translation.z
               else 0 }
      rotation :=
        { x := jsFmod (360 - convertToMm m.rotation.x) 360
          y := jsFmod (360 - convertToMm m.rotation.y) 360
          z := jsFmod (360 - convertToMm m.rotation.z) 360 } },
    ?_, ?_, ?_, ?_, ?_, ?_⟩
  · simp only [convertFootprintToKiCad, h, Option.map_some']
  · simp only [convertToMm_eq]
  · simp only [convertToMm_eq]
  · simp only [convertToMm_eq]
  · intro hsmd
    simp only []
    rw [if_pos hsmd, convertToMm_eq]
  · intro hother
    simp only []
    rw [if_neg hother]

/-- Witness for the amended claim C5 at the concrete smd footprint. -/
theorem c5_model3d_amended_witness :
    (convertFootprintToKiCad fp5base).model3d.map (fun m2 => m2.rotation.x) =
      some (jsFmod (360 - 0.254 * 100) 360) := by
  obtain ⟨m2, h1, h2, _⟩ := c5_model3d_amended fp5base
    ⟨"m", "u", ⟨0, 0, 4⟩, ⟨100, 0, 270⟩⟩ rfl
  rw [h1, Option.map_some']
  simp only [h2]

/-! ## Claim C1 -/

/-- A footprint ARC record whose path string contains no A command. -/
def arcNoAShape : DataStr :=
  { head := none, shape := some ["ARC~1~3~~M 0 0 L 10 10~~gge1~0"] }

def arcNoAPkg : PackageDetail := { title := none, dataStr := some arcNoAShape }

def cadArcNoA : CadData :=
  { dataStr := none, lcsc := none, smt := none, packageDetail := some arcNoAPkg }

/-- Claim C1 is violated by the code (code bug): the spec promises that
every core function is total, but exportKiCadFootprint (and hence the
whole conversion) raises a TypeError on a footprint ARC record whose path
string contains no A command: splitting the path on A yields a single
piece, and the source then reads a property of the undefined second
piece.  Both the isolated arc exporter and the full pipeline evaluate to
the error at this input. -/
theorem c1_totality_violation :
    convertEasyedaCadToKicad qMathW noJson cadArcNoA ⟨false, true⟩ =
      Except.error JsError.typeError ∧
    exportFpArc qMathW ⟨0, 0⟩
      { strokeWidth := 1, layerId := 3, net := "", path := "M 0 0 L 10 10",
        helperDots := "", id := "gge1", isLocked := false } =
      Except.error JsError.typeError :=
  ⟨by with_unfolding_all rfl, by with_unfolding_all rfl⟩

/-! ## Claim C9 -/

/-- Claim C9: convertEasyedaCadToKicad and convertObjToWrlString are
deterministic: the embedding is a pure function of the payload, the
options and the (fixed) platform primitives, so equal inputs produce
identical outputs; no clock, randomness or cross-call state exists. -/
theorem c9_referential_transparency (M : MathFns ℚ) (J : JsonAttrs)
    (a b : CadData) (o p : ConvOptions) (s t : String)
    (hab : a = b) (hop : o = p) (hst : s = t) :
    convertEasyedaCadToKicad M J a o = convertEasyedaCadToKicad M J b p ∧
    convertObjToWrlString s = convertObjToWrlString t := by
  subst hab
  subst hop
  subst hst
  exact ⟨rfl, rfl⟩

/-- Witness for claim C9 at concrete inputs. -/
theorem c9_referential_transparency_witness :
    convertEasyedaCadToKicad qMathW noJson cadArcNoA ⟨false, true⟩ =
      convertEasyedaCadToKicad qMathW noJson cadArcNoA ⟨false, true⟩ ∧
    convertObjToWrlString "v 1 2 3" = convertObjToWrlString "v 1 2 3" :=
  c9_referential_transparency qMathW noJson cadArcNoA cadArcNoA
    ⟨false, true⟩ ⟨false, true⟩ "v 1 2 3" "v 1 2 3" rfl rfl rfl

/-! ## Claim C10 -/

/-- Whitespace removal leaves no whitespace character. -/
theorem stripWs_noWs (s : String) : ∀ c ∈ (stripWs s).data, jsWs c = false := by
  intro c hc
  simp only [stripWs, stripWsChars] at hc
  have := List.of_mem_filter hc
  simpa using this

/-- Characters produced by the overline styling come from the input or
are the three fixed marker characters. -/
theorem applyTextStyleChars_mem {c : Char} {l : List Char}
    (hc : c ∈ applyTextStyleChars l) :
    c ∈ l ∨ c = '~' ∨ c = '\x7b' ∨ c = '\x7d' := by
  by_cases h : l.getLast? = some '#'
  · simp only [applyTextStyleChars, if_pos h, List.mem_cons, List.mem_append] at hc
    rcases hc with rfl | rfl | hc | hc
    · exact Or.inr (Or.inl rfl)
    · exact Or.inr (Or.inr (Or.inl rfl))
    · exact Or.inl (List.dropLast_prefix l |>.subset hc)
    · simp at hc
      exact Or.inr (Or.inr (Or.inr hc))
  · simp only [applyTextStyleChars, if_neg h] at hc
    exact Or.inl hc

/-- Characters of a joined list come from the separator or a part. -/
theorem joinChars_mem {c sep : Char} :
    ∀ {parts : List (List Char)}, c ∈ joinChars sep parts →
      c = sep ∨ ∃ p ∈ parts, c ∈ p := by
  intro parts
  induction parts with
  | nil => intro h; simp [joinChars] at h
  | cons x rest ih =>
    cases rest with
    | nil =>
      intro h
      simp only [joinChars] at h
      exact Or.inr ⟨x, List.mem_cons_self _ _, h⟩
    | cons y t =>
      intro h
      simp only [joinChars, List.mem_append, List.mem_cons] at h
      rcases h with h | h | h
      · exact Or.inr ⟨x, List.mem_cons_self _ _, h⟩
      · exact Or.inl h
      · rcases ih h with h | ⟨p, hp, hcp⟩
        · exact Or.inl h
        · exact Or.inr ⟨p, List.mem_cons_of_mem _ hp, hcp⟩

/-- Pin-name styling of a whitespace-free string stays whitespace-free. -/
theorem applyPinNameStyle_noWs (s : String)
    (hs : ∀ c ∈ s.data, jsWs c = false) :
    ∀ c ∈ (applyPinNameStyle s).data, jsWs c = false := by
  intro c hc
  simp only [applyPinNameStyle] at hc
  rcases joinChars_mem hc with rfl | ⟨p, hp, hcp⟩
  · rfl
  · rcases List.mem_map.mp hp with ⟨part, hpart, rfl⟩
    rcases applyTextStyleChars_mem hcp with h | rfl | rfl | rfl
    · exact hs c (jsSplitChar_mem '/' s.data part hpart c h)
    · rfl
    · rfl
    · rfl

/-- Claim C10: every pin of the converted symbol has its name text and
its number stripped of all whitespace, so neither string (nor the styled
pin name later written into the KiCad symbol text) contains a whitespace
character. -/
theorem c10_pin_ws_free (M : MathFns ℚ) (symbol : EeSymbol) (p : KiPin)
    (hp : p ∈ (convertSymbolToKiCad M symbol).pins) :
    (∀ c ∈ p.name.data, jsWs c = false) ∧
    (∀ c ∈ p.number.data, jsWs c = false) ∧
    (∀ c ∈ (applyPinNameStyle p.name).data, jsWs c = false) := by
  simp only [convertSymbolToKiCad] at hp
  rw [List.mem_map] at hp
  obtain ⟨pin, hpin, rfl⟩ := hp
  exact ⟨stripWs_noWs _, stripWs_noWs _,
    applyPinNameStyle_noWs _ (stripWs_noWs _)⟩

/-- A concrete pin whose raw name and number contain spaces. -/
def pin10 : EePin :=
  { settings :=
      { isDisplayed := true, type := 0, number := " 1 2", posX := 0, posY := 0,
        rotation := 0, id := "", isLocked := false }
    pinPath := { path := "", color := "" }
    name :=
      { isDisplayed := true, posX := 0, posY := 0, rotation := 0,
        text := " A B ", textAnchor := "", font := "", fontSize := 7 }
    dot := { isDisplayed := false, circleX := 0, circleY := 0 }
    clock := { isDisplayed := false, path := "" } }

def sym10 : EeSymbol :=
  { info := ⟨"", "", "", "", "", "", ""⟩, bbox := ⟨0, 0⟩, pins := [pin10],
    rectangles := [], circles := [], arcs := [], ellipses := [],
    polylines := [], polygons := [], paths := [] }

/-- The conversion of pin10 under the concrete math model. -/
def p10 : KiPin :=
  { name := "AB", number := "12", style := "line", length := 0,
    type := "unspecified", orientation := 180, posX := 0, posY := 0 }

/-- Witness for claim C10: the converted concrete pin is whitespace
free. -/
theorem c10_pin_ws_free_witness : jsWs 'A' = false ∧ jsWs '1' = false := by
  have h := c10_pin_ws_free qMathW sym10 p10 (by with_unfolding_all decide)
  exact ⟨h.1 'A' (by decide), h.2.1 '1' (by decide)⟩

/-! ## Claim C6 -/

/-- An assigned key stays found and unchanged as the link map grows. -/
theorem linkFind_append (l l2 : List (Option Int × Nat)) (k : Option Int)
    (v : Nat) (h : linkFind l k = some v) : linkFind (l ++ l2) k = some v := by
  induction l with
  | nil => simp [linkFind] at h
  | cons a rest ih =>
    cases hpa : (a.1 == k) with
    | true =>
      simp only [linkFind, List.cons_append, List.find?_cons, hpa] at h ⊢
      exact h
    | false =>
      simp only [linkFind, List.cons_append, List.find?_cons, hpa] at h ⊢
      exact ih h

/-- A key missing from the map is missing from the key list. -/
theorem linkFind_eq_none (l : List (Option Int × Nat)) (k : Option Int)
    (h : linkFind l k = none) : k ∉ l.map Prod.fst := by
  intro hmem
  rcases List.mem_map.mp hmem with ⟨a, ha, hak⟩
  simp only [linkFind, Option.map_eq_none', List.find?_eq_none] at h
  exact absurd (by simpa using hak) (by simpa using h a ha)

/-- A found key is in the key list. -/
theorem linkFind_mem (l : List (Option Int × Nat)) (k : Option Int) (v : Nat)
    (h : linkFind l k = some v) : k ∈ l.map Prod.fst := by
  simp only [linkFind, Option.map_eq_some'] at h
  obtain ⟨a, ha, _⟩ := h
  have hmem := List.mem_of_find?_eq_some ha
  have hk := List.find?_some ha
  rcases List.mem_map.mp (List.mem_map_of_mem Prod.fst hmem) with _
  exact List.mem_map.mpr ⟨a, hmem, by simpa using hk⟩

/-- Appending an unassigned key makes it found at the appended value. -/
theorem linkFind_append_self (l : List (Option Int × Nat)) (k : Option Int)
    (c : Nat) (h : linkFind l k = none) :
    linkFind (l ++ [(k, c)]) k = some c := by
  induction l with
  | nil => simp [linkFind]
  | cons a rest ih =>
    cases hpa : (a.1 == k) with
    | true =>
      simp only [linkFind, List.find?_cons, hpa] at h
      simp at h
    | false =>
      simp only [linkFind, List.find?_cons, hpa] at h
      simp only [linkFind, List.cons_append, List.find?_cons, hpa]
      exact ih h

/-- Well-formedness of a de-duplication state: the keys are distinct and
the collected points are exactly the vertex entries of the keys, in
insertion order. -/
def GoodSt (vs : List String) (st : DedupState) : Prop :=
  (st.link.map Prod.fst).Nodup ∧
  st.points = st.link.map (fun p => vertexAt vs p.1)

/-- One step assigns the reference a value that the resulting map
reports. -/
theorem dedupStep_found (vs : List String) (st : DedupState) (idx : Option Int) :
    ∃ m : Nat, linkFind (dedupStep vs st idx).1.link idx = some m ∧
      (dedupStep vs st idx).2 = (m : Int) := by
  unfold dedupStep
  cases hf : linkFind st.link idx with
  | some v => exact ⟨v, by simpa using hf, rfl⟩
  | none => exact ⟨st.counter, linkFind_append_self _ _ _ hf, rfl⟩

/-- One step preserves earlier assignments. -/
theorem dedupStep_mono (vs : List String) (st : DedupState) (idx k : Option Int)
    (v : Nat) (h : linkFind st.link k = some v) :
    linkFind (dedupStep vs st idx).1.link k = some v := by
  unfold dedupStep
  cases hf : linkFind st.link idx with
  | some w => exact h
  | none => exact linkFind_append _ _ _ _ h

/-- One step preserves well-formedness. -/
theorem dedupStep_good (vs : List String) (st : DedupState) (idx : Option Int)
    (hg : GoodSt vs st) : GoodSt vs (dedupStep vs st idx).1 := by
  unfold dedupStep
  cases hf : linkFind st.link idx with
  | some v => exact hg
  | none =>
    constructor
    · simp only [List.map_append, List.map_cons, List.map_nil]
      rw [List.nodup_append]
      refine ⟨hg.1, by simp, ?_⟩
      intro a ha hb
      simp at hb
      subst hb
      exact linkFind_eq_none _ _ hf ha
    · simp only [List.map_append, List.map_cons, List.map_nil]
      rw [hg.2]

/-- Face-level walk preserves earlier assignments. -/
theorem dedupFaceGo_mono (vs : List String) :
    ∀ (face : List (Option Int)) (st : DedupState) (acc : List Int)
      (k : Option Int) (v : Nat), linkFind st.link k = some v →
      linkFind (dedupFaceGo vs st acc face).1.link k = some v := by
  intro face
  induction face with
  | nil => intro st acc k v h; exact h
  | cons idx rest ih =>
    intro st acc k v h
    exact ih _ _ k v (dedupStep_mono vs st idx k v h)

/-- Face-level walk assigns every referenced index. -/
theorem dedupFaceGo_some (vs : List String) :
    ∀ (face : List (Option Int)) (st : DedupState) (acc : List Int),
      ∀ k ∈ face, ∃ m : Nat,
        linkFind (dedupFaceGo vs st acc face).1.link k = some m := by
  intro face
  induction face with
  | nil => intro st acc k hk; simp at hk
  | cons idx rest ih =>
    intro st acc k hk
    obtain ⟨m, hfind, _⟩ := dedupStep_found vs st idx
    rcases List.mem_cons.mp hk with rfl | hk
    · exact ⟨m, dedupFaceGo_mono vs rest _ _ k m hfind⟩
    · exact ih _ _ k hk

/-- Face-level walk preserves well-formedness. -/
theorem dedupFaceGo_good (vs : List String) :
    ∀ (face : List (Option Int)) (st : DedupState) (acc : List Int),
      GoodSt vs st → GoodSt vs (dedupFaceGo vs st acc face).1 := by
  intro face
  induction face with
  | nil => intro st acc hg; exact hg
  | cons idx rest ih =>
    intro st acc hg
    exact ih _ _ (dedupStep_good vs st idx hg)

/-- The face-level walk emits, after the accumulator, exactly the
assignment of each reference under any map extending the resulting
state. -/
theorem dedupFaceGo_emit (vs : List String) :
    ∀ (face : List (Option Int)) (st : DedupState) (acc : List Int)
      (L : List (Option Int × Nat)),
      (∀ k v, linkFind (dedupFaceGo vs st acc face).1.link k = some v →
        linkFind L k = some v) →
      (dedupFaceGo vs st acc face).2 = acc ++ face.map (fun k =>
        (((linkFind L k).getD 0 : Nat) : Int)) := by
  intro face
  induction face with
  | nil => intro st acc L hext; simp [dedupFaceGo]
  | cons idx rest ih =>
    intro st acc L hext
    obtain ⟨m, hfind, hret⟩ := dedupStep_found vs st idx
    have hstep : dedupFaceGo vs st acc (idx :: rest) =
        dedupFaceGo vs (dedupStep vs st idx).1
          (acc ++ [(dedupStep vs st idx).2]) rest := rfl
    rw [hstep] at hext ⊢
    have hL : linkFind L idx = some m :=
      hext idx m (dedupFaceGo_mono vs rest _ _ idx m hfind)
    rw [ih _ _ L hext, hret, List.map_cons, hL]
    simp [List.append_assoc]

/-- Shape-level analogues over all faces. -/
theorem processFacesGo_mono (vs : List String) :
    ∀ (faces : List (List (Option Int))) (st : DedupState)
      (out : List (List Int)) (k : Option Int) (v : Nat),
      linkFind st.link k = some v →
      linkFind (processFacesGo vs st out faces).1.link k = some v := by
  intro faces
  induction faces with
  | nil => intro st out k v h; exact h
  | cons face rest ih =>
    intro st out k v h
    exact ih _ _ k v (dedupFaceGo_mono vs face st [] k v h)

theorem processFacesGo_some (vs : List String) :
    ∀ (faces : List (List (Option Int))) (st : DedupState)
      (out : List (List Int)),
      ∀ f ∈ faces, ∀ k ∈ f, ∃ m : Nat,
        linkFind (processFacesGo vs st out faces).1.link k = some m := by
  intro faces
  induction faces with
  | nil => intro st out f hf; simp at hf
  | cons face rest ih =>
    intro st out f hf k hk
    rcases List.mem_cons.mp hf with rfl | hf
    · obtain ⟨m, hm⟩ := dedupFaceGo_some vs f st [] k hk
      exact ⟨m, processFacesGo_mono vs rest _ _ k m hm⟩
    · exact ih _ _ f hf k hk

theorem processFacesGo_good (vs : List String) :
    ∀ (faces : List (List (Option Int))) (st : DedupState)
      (out : List (List Int)),
      GoodSt vs st → GoodSt vs (processFacesGo vs st out faces).1 := by
  intro faces
  induction faces with
  | nil => intro st out hg; exact hg
  | cons face rest ih =>
    intro st out hg
    exact ih _ _ (dedupFaceGo_good vs face st [] hg)

/-- The shape-level walk emits one row per face: the assignments of its
references under any extension of the final state, each terminated by the
-1 sentinel. -/
theorem processFacesGo_emit (vs : List String) :
    ∀ (faces : List (List (Option Int))) (st : DedupState)
      (out : List (List Int)) (L : List (Option Int × Nat)),
      (∀ k v, linkFind (processFacesGo vs st out faces).1.link k = some v →
        linkFind L k = some v) →
      (processFacesGo vs st out faces).2 = out ++ faces.map (fun f =>
        f.map (fun k => (((linkFind L k).getD 0 : Nat) : Int)) ++ [-1]) := by
  intro faces
  induction faces with
  | nil => intro st out L hext; simp [processFacesGo]
  | cons face rest ih =>
    intro st out L hext
    have hstep : processFacesGo vs st out (face :: rest) =
        processFacesGo vs (dedupFaceGo vs st [] face).1
          (out ++ [(dedupFaceGo vs st [] face).2 ++ [-1]]) rest := rfl
    rw [hstep] at hext ⊢
    have hface := dedupFaceGo_emit vs face st [] L
      (fun k v h => hext k v (processFacesGo_mono vs rest _ _ k v h))
    rw [ih _ _ L hext, hface]
    simp [List.append_assoc]

/-- Claim C6 counterexample: in a material group with one face
referencing source indices 1, 2 and 3, the vertex entry referenced by
index 3 appears twice in the emitted point list (the last collected point
is duplicated before emission), not exactly once. -/
theorem c6_dedup_counterexample :
    vertexAt ["0 0 0", "1 1 1", "2 2 2"] (some 3) = some "2 2 2" ∧
    (dupLast (processFaces ["0 0 0", "1 1 1", "2 2 2"]
      [[some 1, some 2, some 3]]).1.points).count (some "2 2 2") = 2 ∧
    ((2 : Nat) ≠ 1) := by
  with_unfolding_all decide

/-- Claim C6 as amended: in every material group, all face references to
the same source vertex index receive the same local coordIndex value (a
single assignment function explains the whole emitted index list); the
assigned source indices are pairwise distinct and every referenced index
is among them, and the collected point list (before the final
duplicate-last-point step of the emitted list) is exactly the vertex
entry of each assigned index in order, so each referenced index
contributes its vertex exactly once there; the emitted list then
duplicates the last collected point. -/
theorem c6_dedup_amended (vertices : List String)
    (faces : List (List (Option Int))) :
    ∃ assign : Option Int → Int,
      (processFaces vertices faces).2 =
        faces.map (fun f => f.map assign ++ [-1]) ∧
      ((processFaces vertices faces).1.link.map Prod.fst).Nodup ∧
      (processFaces vertices faces).1.points =
        (processFaces vertices faces).1.link.map
          (fun p => vertexAt vertices p.1) ∧
      (∀ f ∈ faces, ∀ k ∈ f,
        k ∈ (processFaces vertices faces).1.link.map Prod.fst) := by
  have hginit : GoodSt vertices ⟨[], 0, []⟩ := ⟨by simp, by simp⟩
  have hg := processFacesGo_good vertices faces ⟨[], 0, []⟩ [] hginit
  have heq := processFacesGo_emit vertices faces ⟨[], 0, []⟩ []
    (processFaces vertices faces).1.link (fun k v h => h)
  refine ⟨fun k =>
    (((linkFind (processFaces vertices faces).1.link k).getD 0 : Nat) : Int),
    ?_, hg.1, hg.2, ?_⟩
  · simpa [processFaces] using heq
  · intro f hf k hk
    obtain ⟨m, hm⟩ := processFacesGo_some vertices faces ⟨[], 0, []⟩ [] f hf k hk
    exact linkFind_mem _ _ _ (by simpa [processFaces] using hm)

/-- Witness for the amended claim C6: key distinctness and the
membership of a referenced index hold at the concrete one-face group. -/
theorem c6_dedup_amended_witness :
    some 3 ∈ (processFaces ["0 0 0", "1 1 1", "2 2 2"]
      [[some 1, some 2, some 3]]).1.link.map Prod.fst := by
  obtain ⟨assign, _, _, _, hmem⟩ :=
    c6_dedup_amended ["0 0 0", "1 1 1", "2 2 2"] [[some 1, some 2, some 3]]
  exact hmem [some 1, some 2, some 3] (by decide) (some 3) (by decide)

end EasyEda
